import Mathlib

/-!
Verification development for the sysd2v systemd-to-SysV converter
(src/sysd2v.py).  The converter's engine is embedded shallowly:

* raw unit-file text is a `List String` of lines;
* the parsed document (`configparser` result) is `Config`, an association
  list from section name to an association list from lowercased option
  name to value;
* template information is `Ctx` (service name, template flag, instance,
  prefix name), mirroring the mutable fields of `SystemdServiceConverter`;
* Python string primitives (`str.strip`, `str.split`, `str.replace`,
  truthiness) are modelled as executable functions on `List Char` /
  `String`;
* generation functions return `Except PyErr (List String)`: a Python
  runtime error (the undefined `timeout_var` name in `_add_timeout_check`,
  or the `split()[0]` IndexError in `get_executable_path` on `ExecStart=-`)
  is an `Except.error`;
* Python's `set()` iteration order (used once, for the Required-Start /
  Required-Stop / Should-Start facility tokens) is modelled by an explicit
  ordering parameter `σ : List String → List String` whose specification is
  that it returns some permutation of the list's distinct elements.

The `configparser` library (third-party, not part of the repository) is
modelled for its default configuration: section headers `[name]`,
`key = value` / `key : value` option lines with keys lowercased, full-line
`#`/`;` comments, blank lines skipped, indented non-blank lines treated as
value continuations, strict duplicate detection.  Interpolation is
disabled in the source (`interpolation=None`).
-/

/-- Python runtime outcomes of the converter: explicit `ValueError`s raised
by the source, configparser parse errors, and the two latent runtime
errors (an IndexError in `get_executable_path` and the NameError caused by
the undefined `timeout_var` in `_add_timeout_check`). -/
inductive PyErr where
  | templateError
  | noServiceSection
  | dupSection
  | dupOption
  | missingSectionHeader
  | parsingError
  | indexError
  | nameErrorTimeoutVar
deriving DecidableEq, Repr

/-- The template/naming state of `SystemdServiceConverter`
(`service_name`, `template_service`, `instance_name`, `prefix_name`). -/
structure Ctx where
  serviceName : String
  templateService : Bool
  instanceName : String
  prefixName : String
deriving DecidableEq, Repr

/-- The parsed configuration document: section name to (lowercased option
name to value), in insertion order. -/
abbrev Config : Type := List (String × List (String × String))

/-- Python `str` whitespace characters (the ASCII ones). -/
def isPySpace (c : Char) : Bool :=
  c == ' ' || c == '\t' || c == '\n' || c == '\r' || c == '\x0b' || c == '\x0c'

/-- Python `str.strip()` on a character list. -/
def stripL (l : List Char) : List Char :=
  ((l.dropWhile isPySpace).reverse.dropWhile isPySpace).reverse

/-- Python `str.strip()`. -/
def pyStripS (s : String) : String := ⟨stripL s.data⟩

/-- Worker for whitespace `str.split()`: accumulates the current word
reversed. -/
def pySplitWsGo : List Char → List Char → List (List Char)
  | [], cur => if cur = [] then [] else [cur.reverse]
  | c :: t, cur =>
    if isPySpace c then
      if cur = [] then pySplitWsGo t [] else cur.reverse :: pySplitWsGo t []
    else pySplitWsGo t (c :: cur)

/-- Python no-argument `str.split()`: split on whitespace runs, dropping
empty tokens. -/
def pySplitWsL (l : List Char) : List (List Char) := pySplitWsGo l []

/-- Python no-argument `str.split()` on `String`. -/
def pySplitWsS (s : String) : List String := (pySplitWsL s.data).map (fun w => ⟨w⟩)

/-- Worker for single-character `str.split(c)`: keeps empty fields. -/
def pySplitCharGo (c : Char) : List Char → List Char → List (List Char)
  | [], cur => [cur.reverse]
  | x :: t, cur =>
    if x = c then cur.reverse :: pySplitCharGo c t []
    else pySplitCharGo c t (x :: cur)

/-- Python `str.split(c)` for a one-character separator. -/
def pySplitCharL (c : Char) (l : List Char) : List (List Char) := pySplitCharGo c l []

/-- Boolean prefix test on character lists. -/
def isPre : List Char → List Char → Bool
  | [], _ => true
  | _ :: _, [] => false
  | p :: ps, x :: xs => if p = x then isPre ps xs else false

/-- Python substring containment (`pat in s`). -/
def pyContainsL (pat : List Char) : List Char → Bool
  | [] => isPre pat []
  | l@(_ :: t) => isPre pat l || pyContainsL pat t

/-- Python `str.startswith`. -/
def pyStartsWith (s pre : String) : Bool := isPre pre.data s.data

/-- Python `str.endswith`. -/
def pyEndsWith (s post : String) : Bool := isPre post.data.reverse s.data.reverse

/-- Python slicing `s[n:]` (character counted, as in Python). -/
def pyDropS (s : String) (n : Nat) : String := ⟨s.data.drop n⟩

/-- ASCII lowercasing of one character (what Python `str.lower()` does on
the ASCII keys the converter handles). -/
def asciiLowerChar (c : Char) : Char :=
  if 'A' ≤ c ∧ c ≤ 'Z' then Char.ofNat (c.toNat + 32) else c

/-- Python `str.lower()` (ASCII). -/
def asciiLowerS (s : String) : String := ⟨s.data.map asciiLowerChar⟩

/-- Python `sep.join(parts)`. -/
def joinWith (sep : String) (ls : List String) : String :=
  ⟨(List.intersperse sep.data (ls.map String.data)).flatten⟩

/-- Worker for multi-character `str.split(sep)`: keeps empty fields;
matches are found left to right and are non-overlapping.  The fuel is the
input length (structural recursion so that evaluation is by the kernel). -/
def pySplitSepFuel (sep : List Char) : Nat → List Char → List Char → List (List Char)
  | _, [], cur => [cur.reverse]
  | 0, s, cur => [cur.reverse ++ s]
  | fuel + 1, x :: t, cur =>
    if sep ≠ [] ∧ isPre sep (x :: t) = true then
      cur.reverse :: pySplitSepFuel sep fuel ((x :: t).drop sep.length) []
    else pySplitSepFuel sep fuel t (x :: cur)

/-- Python `str.split(sep)` for a non-empty separator string. -/
def pySplitSepS (sep s : String) : List String :=
  (pySplitSepFuel sep.data s.data.length s.data []).map (fun w => ⟨w⟩)

/-- Python `str.replace(pat, rep)` on character lists: left-to-right,
non-overlapping, replacement text is not re-scanned within the call.
The fuel argument is the input length (the zero-fuel arm is unreachable
whenever the fuel bounds the input length, see `pyReplaceFuel_congr`).
Only ever used with a non-empty pattern, as in the source. -/
def pyReplaceFuel (pat rep : List Char) : Nat → List Char → List Char
  | _, [] => []
  | 0, s => s
  | fuel + 1, x :: t =>
    if pat ≠ [] ∧ isPre pat (x :: t) = true then
      rep ++ pyReplaceFuel pat rep fuel ((x :: t).drop pat.length)
    else x :: pyReplaceFuel pat rep fuel t

/-- Python `str.replace(pat, rep)` on character lists. -/
def pyReplaceL (pat rep : List Char) (s : List Char) : List Char :=
  pyReplaceFuel pat rep s.length s

/-- Python `str.replace` on `String`. -/
def pyReplaceS (s pat rep : String) : String := ⟨pyReplaceL pat.data rep.data s.data⟩

/-- The `basename.replace('.service', '')` step of `parse_service_file`
(note: Python `replace` removes every occurrence, not only a suffix). -/
def stripServiceSuffix (s : String) : String := pyReplaceS s ".service" ""

/-- Python `stripped_line.split('=', 1)`: split at the first occurrence of `c`
(the pair is (before, after); the source only calls this when `c` occurs). -/
def splitOnceChar (c : Char) (l : List Char) : List Char × List Char :=
  (l.takeWhile (fun x => x ≠ c), (l.dropWhile (fun x => x ≠ c)).drop 1)

/-- First-match association-list lookup. -/
def alookup {α : Type} : List (String × α) → String → Option α
  | [], _ => none
  | (k, v) :: t, key => if k = key then some v else alookup t key

/-- Association-list update: replace the first binding of `key` or append. -/
def aset {α : Type} : List (String × α) → String → α → List (String × α)
  | [], key, v => [(key, v)]
  | (k, w) :: t, key, v =>
    if k = key then (key, v) :: t else (k, w) :: aset t key v

/-- Python truthiness of an optional string (`if x:` after a
`config.get` with `fallback=None`). -/
def optTruthy (o : Option String) : Bool :=
  match o with
  | some v => v != ""
  | none => false

/-- Embeds `get_config_option(section, option, fallback=None)`: configparser
lowercases the queried option name; sections are case sensitive. -/
def get_config_option (cfg : Config) (sec opt : String) : Option String :=
  (alookup cfg sec).bind fun opts => alookup opts (asciiLowerS opt)

/-- The `get_config_option` lookup with a string fallback. -/
def getOptD (cfg : Config) (sec opt dflt : String) : String :=
  (get_config_option cfg sec opt).getD dflt

/-- Whether the parsed document has a section (`config.has_section`). -/
def hasSection (cfg : Config) (sec : String) : Bool := (alookup cfg sec).isSome

/-!  `preprocess_service_file`: scans lines, keeps the first occurrence of
each (section, key) and drops later duplicates.  The merged values are
accumulated in `section_data` exactly as the Python does — and, exactly as
the Python does, that dictionary is never read back into the output. -/

/-- One step state of `preprocess_service_file`: `section_data` and
`current_section`, walking the remaining lines. -/
def ppLoop (secData : List (String × List (String × String)))
    (cur : Option String) : List String → List String
  | [] => []
  | line :: rest =>
    let s := pyStripS line
    if pyStartsWith s "[" && pyEndsWith s "]" then
      line :: ppLoop (aset secData s []) (some s) rest
    else
      match cur with
      | some csec =>
        if '=' ∈ s.data then
          let kv := splitOnceChar '=' s.data
          let key := asciiLowerS (pyStripS ⟨kv.1⟩)
          let v := pyStripS ⟨kv.2⟩
          let opts := (alookup secData csec).getD []
          match alookup opts key with
          | some oldv =>
            ppLoop (aset secData csec (aset opts key (oldv ++ " " ++ v))) cur rest
          | none =>
            line :: ppLoop (aset secData csec (opts ++ [(key, v)])) cur rest
        else line :: ppLoop secData cur rest
      | none => line :: ppLoop secData cur rest

/-- Embeds `preprocess_service_file`, on the file's lines (without terminators). -/
def preprocess_service_file (lines : List String) : List String := ppLoop [] none lines

/-- The specifier table of `replace_systemd_specifiers`, in the
dictionary's insertion order. -/
def specPairs (ctx : Ctx) : List (Char × String) :=
  [('i', ctx.instanceName), ('I', ctx.instanceName),
   ('p', ctx.prefixName), ('P', ctx.prefixName),
   ('f', "/" ++ ctx.instanceName),
   ('u', ctx.serviceName), ('U', ctx.serviceName)]

/-- One iteration of the replacement loop: `if specifier in result:
result = result.replace(specifier, replacement)`. -/
def specStep (res : List Char) (p : Char × String) : List Char :=
  if pyContainsL ['%', p.1] res = true then pyReplaceL ['%', p.1] p.2.data res else res

/-- The body of `replace_systemd_specifiers` on a character list. -/
def replaceAllList (ctx : Ctx) (s : List Char) : List Char :=
  if ctx.templateService = true then (specPairs ctx).foldl specStep s else s

/-- Embeds `replace_systemd_specifiers`. -/
def replace_systemd_specifiers (ctx : Ctx) (text : String) : String :=
  ⟨replaceAllList ctx text.data⟩

/-- Modelled from the spec: the single tokenizing pass the specification
demands for specifier substitution — scan left to right, substitute each
recognized `%x` token once, and never re-scan replacement text.  Used only
to compare the source's chained-replacement behaviour against the spec's
words. -/
def singlePassSpec (ctx : Ctx) : List Char → List Char
  | [] => []
  | '%' :: d :: rest =>
    match List.lookup d (specPairs ctx) with
    | some v => v.data ++ singlePassSpec ctx rest
    | none => '%' :: singlePassSpec ctx (d :: rest)
  | x :: rest => x :: singlePassSpec ctx rest

/-- A text alternating `%`-free segments with explicit two-character
specifier tokens: `a₀ %c₀ a₁ %c₁ … tail`.  Every text whose `%` characters
all belong to such tokens has this shape, so quantifying over it captures
"every occurrence" of the named tokens. -/
def tokText : List (List Char × Char) → List Char → List Char
  | [], tail => tail
  | (a, c) :: ps, tail => a ++ '%' :: c :: tokText ps tail

/-- The same text with every token replaced by `rep`: the expected result
of substituting all the tokens of a `tokText`. -/
def subTokText (rep : List Char) : List (List Char × Char) → List Char → List Char
  | [], tail => tail
  | (a, _) :: ps, tail => a ++ rep ++ subTokText rep ps tail

/-- The template-name analysis at the start of `parse_service_file`. -/
def parseCtxName (basename : String) : Except PyErr Ctx :=
  let name := stripServiceSuffix basename
  if '@' ∈ name.data then
    match pySplitCharL '@' name.data with
    | p :: i :: _ =>
      if i ≠ [] then .ok ⟨name, true, ⟨i⟩, ⟨p⟩⟩ else .error .templateError
    | _ => .error .templateError
  else .ok ⟨name, false, "", ""⟩

/-!  The configparser model. -/

/-- Append an option to a section of the document. -/
def addOption (cfg : Config) (sec key v : String) : Config :=
  cfg.map fun p => if p.1 = sec then (p.1, p.2 ++ [(key, v)]) else p

/-- Continuation lines: extend the value of an existing option. -/
def extendOption (cfg : Config) (sec key extra : String) : Config :=
  cfg.map fun p =>
    if p.1 = sec then
      (p.1, p.2.map fun q => if q.1 = key then (q.1, q.2 ++ "\n" ++ extra) else q)
    else p

/-- Whether a section already has an option. -/
def hasOption (cfg : Config) (sec key : String) : Bool :=
  ((alookup cfg sec).getD []).any fun q => q.1 == key

/-- The line loop of `configparser.read_file` (default options, strict
duplicate checking, interpolation disabled). -/
def parseLines : List String → Option String → Option String → Config → Except PyErr Config
  | [], _, _, acc => .ok acc
  | l :: rest, cur, lastKey, acc =>
    let s := pyStripS l
    if s = "" then parseLines rest cur lastKey acc
    else if pyStartsWith s "#" || pyStartsWith s ";" then parseLines rest cur lastKey acc
    else if (l.data.head?.map isPySpace).getD false then
      match cur, lastKey with
      | some sec, some k => parseLines rest cur lastKey (extendOption acc sec k s)
      | _, _ => .error .parsingError
    else if pyStartsWith s "[" && pyEndsWith s "]" then
      let h : String := ⟨(s.data.drop 1).dropLast⟩
      if h = "" then .error .parsingError
      else if hasSection acc h then .error .dupSection
      else parseLines rest (some h) none (acc ++ [(h, [])])
    else if '=' ∈ s.data || ':' ∈ s.data then
      let cut := s.data.takeWhile (fun c => c ≠ '=' ∧ c ≠ ':')
      let restv := (s.data.dropWhile (fun c => c ≠ '=' ∧ c ≠ ':')).drop 1
      let key := asciiLowerS (pyStripS ⟨cut⟩)
      let v := pyStripS ⟨restv⟩
      if key = "" then .error .parsingError
      else
        match cur with
        | none => .error .missingSectionHeader
        | some sec =>
          if hasOption acc sec key then .error .dupOption
          else parseLines rest cur (some key) (addOption acc sec key v)
    else .error .parsingError

/-- Split joined content back into lines at newlines. -/
def splitLinesS (content : String) : List String :=
  (pySplitCharL '\n' content.data).map (fun w => ⟨w⟩)

/-- Parse preprocessed, substituted content with the configparser model. -/
def parseCfgText (content : String) : Except PyErr Config :=
  parseLines (splitLinesS content) none none []

/-- The part of `parse_service_file` up to (but not including) the `[Service]`
presence check: template analysis, duplicate-key preprocessing, specifier
substitution, structured parse. -/
def loadUnitDoc (basename : String) (lines : List String) : Except PyErr (Ctx × Config) := do
  let ctx ← parseCtxName basename
  let pre := preprocess_service_file lines
  let content := joinWith "\n" pre
  let content2 := replace_systemd_specifiers ctx content
  let cfg ← parseCfgText content2
  pure (ctx, cfg)

/-- Embeds `parse_service_file`: load the document and require a `[Service]`
section. -/
def parse_service_file (basename : String) (lines : List String) :
    Except PyErr (Ctx × Config) := do
  let pr ← loadUnitDoc basename lines
  if hasSection pr.2 "Service" then pure pr else .error .noServiceSection

/-!  Script generation.  Each `generate_*` method of the source prints
lines; the embedding returns the list of printed lines, or an error for
the Python runtime errors noted on `PyErr`. -/

/-- Embeds `get_executable_path`: first whitespace token of `ExecStart` after an
optional leading `-`; `exec_start.split()[0]` raises IndexError when the
remainder is empty (e.g. `ExecStart=-`). -/
def get_executable_path (cfg : Config) : Except PyErr String :=
  let es := getOptD cfg "Service" "ExecStart" ""
  if es = "" then .ok ""
  else
    let es2 := if pyStartsWith es "-" then pyDropS es 1 else es
    match pySplitWsS es2 with
    | [] => .error .indexError
    | w :: _ => .ok w

/-- Embeds `get_full_command`: `ExecStart` with an optional leading `-` removed. -/
def get_full_command (cfg : Config) : String :=
  let es := getOptD cfg "Service" "ExecStart" ""
  if es = "" then "" else if pyStartsWith es "-" then pyDropS es 1 else es

/-- One mapping step of the fixed After/Requires dependency table in
`_generate_dependencies` (unrecognized tokens fall through unchanged). -/
def depMapStep (acc : List String) (dep : String) : List String :=
  if dep = "network.target" then acc ++ ["$network"]
  else if dep = "syslog.target" then
    if "$syslog" ∈ acc then acc else acc ++ ["$syslog"]
  else if dep = "remote-fs.target" then acc ++ ["$remote_fs"]
  else if dep = "time-sync.target" then acc ++ ["$time"]
  else if dep = "rpcbind.service" then acc ++ ["$portmap"]
  else if dep = "nss-lookup.target" then acc ++ ["$named"]
  else acc

/-- The `required_deps` list built by `_generate_dependencies`: the
`{$syslog, $local_fs}` seed, `$remote_fs` for a `/usr`-prefixed
executable, then the After and Requires tokens through the fixed table. -/
def requiredDepsList (cfg : Config) : Except PyErr (List String) := do
  let ep ← get_executable_path cfg
  let req0 := ["$syslog", "$local_fs"]
  let req1 := if ep != "" && pyStartsWith ep "/usr" then req0 ++ ["$remote_fs"] else req0
  let afterV := getOptD cfg "Unit" "After" ""
  let req2 := if afterV != "" then (pySplitWsS afterV).foldl depMapStep req1 else req1
  let reqV := getOptD cfg "Unit" "Requires" ""
  let req3 := if reqV != "" then (pySplitWsS reqV).foldl depMapStep req2 else req2
  pure req3

/-- One mapping step for the Wants tokens. -/
def wantsMapStep (acc : List String) (w : String) : List String :=
  if w = "network.target" then acc ++ ["$network"]
  else if w = "remote-fs.target" then acc ++ ["$remote_fs"]
  else acc

/-- The `should_deps` list built by `_generate_dependencies`. -/
def shouldDepsList (cfg : Config) : List String :=
  let wantsV := getOptD cfg "Unit" "Wants" ""
  if wantsV != "" then (pySplitWsS wantsV).foldl wantsMapStep [] else []

/-- An ordering of the distinct elements of a list, modelling the
iteration order of a Python `set()` built from the list. -/
abbrev SetOrder : Type := List String → List String

/-- Python `" ".join(...)`. -/
def joinSp (ws : List String) : String := joinWith " " ws

/-- Embeds `_generate_dependencies`: the dependency lines of the LSB header.
`σ` models the iteration order of `set(required_deps)` / `set(should_deps)`. -/
def _generate_dependencies (σ : SetOrder) (cfg : Config) : Except PyErr (List String) := do
  let req ← requiredDepsList cfg
  let sd := shouldDepsList cfg
  let reqStr := joinSp (σ req)
  pure (["# Required-Start:\t" ++ reqStr, "# Required-Stop:\t" ++ reqStr] ++
    (if sd ≠ [] then ["# Should-Start:\t" ++ joinSp (σ sd)] else []))

/-- Embeds `_generate_runlevels`. -/
def _generate_runlevels (cfg : Config) : List String :=
  let wantedBy := getOptD cfg "Install" "WantedBy" ""
  if wantedBy = "multi-user.target" then
    ["# Default-Start:\t2 3 4 5", "# Default-Stop:\t\t0 1 6"]
  else if wantedBy = "graphical.target" then
    ["# Default-Start:\t2 3 4 5", "# Default-Stop:\t\t0 1 6"]
  else if wantedBy = "basic.target" then
    ["# Default-Start:\t1", "# Default-Stop:\t"]
  else if wantedBy = "rescue.target" then
    ["# Default-Start:\t1", "# Default-Stop:\t0 2 3 4 5 6"]
  else
    ["# Default-Start:\t2 3 4 5", "# Default-Stop:\t\t0 1 6"]

/-- Embeds `generate_lsb_header`. -/
def generate_lsb_header (σ : SetOrder) (ctx : Ctx) (cfg : Config) :
    Except PyErr (List String) := do
  let deps ← _generate_dependencies σ cfg
  let descr := getOptD cfg "Unit" "Description" ctx.serviceName
  let docu := get_config_option cfg "Unit" "Documentation"
  pure (["### BEGIN INIT INFO", "# Provides: " ++ ctx.serviceName] ++ deps ++
    _generate_runlevels cfg ++ ["# Short-Description: " ++ descr] ++
    (if optTruthy docu then ["# Documentation: " ++ docu.getD ""] else []) ++
    ["### END INIT INFO"])

/-- Embeds `generate_script_variables`. -/
def generate_script_variables (ctx : Ctx) (cfg : Config) : List String :=
  let envFile := get_config_option cfg "Service" "EnvironmentFile"
  let envFileLines :=
    if optTruthy envFile then
      let f0 := envFile.getD ""
      let f := if pyStartsWith f0 "-" then pyDropS f0 1 else f0
      ["if test -f " ++ f ++ "; then", "\t. " ++ f, "fi"]
    else []
  let pidfile := get_config_option cfg "Service" "PIDFile"
  let pidLines :=
    if optTruthy pidfile then ["PIDFILE=" ++ pidfile.getD ""]
    else ["PIDFILE=/var/run/$prog.pid"]
  let descr := getOptD cfg "Unit" "Description" ctx.serviceName
  let docu := get_config_option cfg "Unit" "Documentation"
  let docuLines :=
    if optTruthy docu then ["# Service documentation: " ++ docu.getD ""] else []
  let environment := get_config_option cfg "Service" "Environment"
  let envLines :=
    if optTruthy environment then
      ((pySplitWsS (environment.getD "")).filter fun t => '=' ∈ t.data).map
        fun t => "export " ++ t
    else []
  let workingDir := get_config_option cfg "Service" "WorkingDirectory"
  let wdLines := if optTruthy workingDir then ["WORKDIR=" ++ workingDir.getD ""] else []
  let user := get_config_option cfg "Service" "User"
  let group := get_config_option cfg "Service" "Group"
  let userLines := if optTruthy user then ["USER=" ++ user.getD ""] else []
  let groupLines := if optTruthy group then ["GROUP=" ++ group.getD ""] else []
  let timeoutSec := get_config_option cfg "Service" "TimeoutSec"
  let timeoutStart := get_config_option cfg "Service" "TimeoutStartSec"
  let timeoutStop := get_config_option cfg "Service" "TimeoutStopSec"
  let startTimeoutLines :=
    if optTruthy timeoutStart && timeoutStart.getD "" != "0" then
      ["STARTTIMEOUT=" ++ timeoutStart.getD ""]
    else if optTruthy timeoutSec && timeoutSec.getD "" != "0" then
      ["STARTTIMEOUT=" ++ timeoutSec.getD ""]
    else []
  let stopTimeoutLines :=
    if optTruthy timeoutStop && timeoutStop.getD "" != "0" then
      ["STOPTIMEOUT=" ++ timeoutStop.getD ""]
    else if optTruthy timeoutSec && timeoutSec.getD "" != "0" then
      ["STOPTIMEOUT=" ++ timeoutSec.getD ""]
    else []
  let restartV := get_config_option cfg "Service" "Restart"
  let restartLines :=
    if optTruthy restartV && restartV.getD "" != "no" then
      ["RESTART_MODE=" ++ restartV.getD "",
       "RESTART_SEC=" ++ getOptD cfg "Service" "RestartSec" "1"]
    else []
  let oom := get_config_option cfg "Service" "OOMScoreAdjust"
  let oomLines := if optTruthy oom then ["OOM_SCORE_ADJUST=" ++ oom.getD ""] else []
  [". /lib/lsb/init-functions", "prog=" ++ ctx.serviceName] ++ envFileLines ++
    pidLines ++ ["DESC=\"" ++ descr ++ "\""] ++ docuLines ++ envLines ++ wdLines ++
    userLines ++ groupLines ++ startTimeoutLines ++ stopTimeoutLines ++
    restartLines ++ oomLines

/-- Embeds `_add_success_check`. -/
def _add_success_check (action : String) : List String :=
  ["\tif [ $? -ne 0 ]; then", "\t\tlog_end_msg 1", "\t\texit 1", "\tfi"] ++
    (if action != "startpre" then
      ["\tif [ $? -eq 0 ]; then", "\t\tlog_end_msg 0", "\tfi"]
    else [])

/-- Embeds `_add_timeout_check`: with `TimeoutSec` unset, empty or `"0"` it emits
a plain success check; otherwise the method evaluates
`get_executable_path` and then hits the f-string referencing the
undefined name `timeout_var`, raising NameError. -/
def _add_timeout_check (cfg : Config) (action : String) : Except PyErr (List String) :=
  let timeoutVal := get_config_option cfg "Service" "TimeoutSec"
  if timeoutVal = some "0" || optTruthy timeoutVal = false then
    .ok (_add_success_check action)
  else do
    let _ ← get_executable_path cfg
    .error .nameErrorTimeoutVar

/-- The `ConditionPathExists` guard of `generate_start_function` (lines
402-407 of the source: emitted only when the option is truthy). -/
def condPathExistsBlock (cfg : Config) : List String :=
  let cpe := get_config_option cfg "Unit" "ConditionPathExists"
  if optTruthy cpe then
    ["\tif [ ! -s " ++ cpe.getD "" ++ " ]; then", "\t\tlog_end_msg 1",
     "\t\texit 0", "\tfi"]
  else []

/-- The `ConditionPathExistsGlob` guard (source lines 409-414). -/
def condGlobBlock (cfg : Config) : List String :=
  let cpg := get_config_option cfg "Unit" "ConditionPathExistsGlob"
  if optTruthy cpg then
    ["\tif ! ls " ++ cpg.getD "" ++ " 1> /dev/null 2>&1; then", "\t\tlog_end_msg 1",
     "\t\texit 0", "\tfi"]
  else []

/-- The `ConditionFileNotEmpty` guard (source lines 416-421). -/
def condFileBlock (cfg : Config) : List String :=
  let cfn := get_config_option cfg "Unit" "ConditionFileNotEmpty"
  if optTruthy cfn then
    ["\tif [ ! -s " ++ cfn.getD "" ++ " ]; then", "\t\tlog_end_msg 1",
     "\t\texit 0", "\tfi"]
  else []

/-- The `ConditionDirectoryNotEmpty` guard (source lines 423-428). -/
def condDirBlock (cfg : Config) : List String :=
  let cdn := get_config_option cfg "Unit" "ConditionDirectoryNotEmpty"
  if optTruthy cdn then
    ["\tif [ ! -d " ++ cdn.getD "" ++ " ] || [ -z \"$(ls -A " ++ cdn.getD "" ++
       ")\" ]; then",
     "\t\tlog_end_msg 1", "\t\texit 0", "\tfi"]
  else []

/-- The condition guard blocks at the top of `generate_start_function`,
in source order. -/
def condBlock (cfg : Config) : List String :=
  condPathExistsBlock cfg ++ condGlobBlock cfg ++ condFileBlock cfg ++
    condDirBlock cfg

/-- The WorkingDirectory change at the top of the start function. -/
def workdirBlock (cfg : Config) : List String :=
  let wd := get_config_option cfg "Service" "WorkingDirectory"
  if optTruthy wd then
    ["\tcd " ++ wd.getD "" ++ " || \x7b", "\t\tlog_end_msg 1", "\t\texit 1", "\t\x7d"]
  else []

/-- The ExecStartPre / ExecStartPost loop: `' ; '`-separated commands run
through `start_daemon`, with a success check for non-`-`-prefixed ones. -/
def cmdListBlock (cmds : String) (checkAction : String) : List String :=
  (pySplitSepS " ; " cmds).foldl
    (fun acc cmd =>
      let c := pyStripS cmd
      let opt := pyStartsWith c "-"
      let c2 := if opt then pyDropS c 1 else c
      acc ++ ["\tstart_daemon " ++ c2] ++
        (if !opt then _add_success_check checkAction else []))
    []

/-- The ExecStart dispatch of `generate_start_function` (oneshot /
forking / other service types). -/
def startExecPart (cfg : Config) : Except PyErr (List String) :=
  let es := get_config_option cfg "Service" "ExecStart"
  if optTruthy es = false then .ok []
  else
    let esv := es.getD ""
    let stype := asciiLowerS (getOptD cfg "Service" "Type" "simple")
    if stype = "oneshot" then
      .ok ((pySplitSepS " ; " esv).map
        (fun cmd =>
          let c := pyStripS cmd
          "\t" ++ (if pyStartsWith c "-" then pyDropS c 1 else c)) ++
        _add_success_check "start")
    else if stype = "forking" then do
      let _ ← get_executable_path cfg
      let full := get_full_command cfg
      let popt :=
        if optTruthy (get_config_option cfg "Service" "PIDFile") then " -p $PIDFILE"
        else ""
      let tc ← _add_timeout_check cfg "start"
      pure (["\tstart_daemon" ++ popt ++ " " ++ full] ++ tc)
    else do
      let ep ← get_executable_path cfg
      let full := get_full_command cfg
      let havePid := optTruthy (get_config_option cfg "Service" "PIDFile")
      let line :=
        if full ≠ ep then
          let args := pyStripS (pyDropS full ep.length)
          if havePid then
            "\tstart-stop-daemon --start --background --pidfile $PIDFILE --startas " ++
              ep ++ " -- " ++ args
          else
            "\tstart-stop-daemon --start --background --make-pidfile --pidfile $PIDFILE --startas " ++
              ep ++ " -- " ++ args
        else
          if havePid then
            "\tstart-stop-daemon --start --background --pidfile $PIDFILE --exec " ++ ep
          else
            "\tstart-stop-daemon --start --background --make-pidfile --pidfile $PIDFILE --exec " ++ ep
      let tc ← if stype ≠ "oneshot" then _add_timeout_check cfg "start" else pure []
      pure ([line] ++ tc)

/-- The start function body after the condition guards: working-directory
change, ExecStartPre commands, the ExecStart dispatch, ExecStartPost
commands, and the closing lines (the source prints these in exactly this
order after the guards). -/
def startBodyTail (cfg : Config) : Except PyErr (List String) := do
  let startPre := get_config_option cfg "Service" "ExecStartPre"
  let preLines := if optTruthy startPre then cmdListBlock (startPre.getD "") "startpre" else []
  let execPart ← startExecPart cfg
  let startPost := get_config_option cfg "Service" "ExecStartPost"
  let postLines := if optTruthy startPost then cmdListBlock (startPost.getD "") "start" else []
  pure (workdirBlock cfg ++ preLines ++ execPart ++ postLines ++ ["\x7d", ""])

/-- Embeds `generate_start_function`: header, log line, condition guards, then
the rest of the body. -/
def generate_start_function (cfg : Config) : Except PyErr (List String) := do
  let tail ← startBodyTail cfg
  pure (["start() \x7b", "\tlog_daemon_msg \"Starting $DESC\" \"$prog\""] ++
    condBlock cfg ++ tail)

/-- The ExecStopPost loop of `generate_stop_function`: optional commands
get `|| true`, required ones a stop success check. -/
def stopPostBlock (cmds : String) : List String :=
  (pySplitSepS " ; " cmds).foldl
    (fun acc cmd =>
      let c := pyStripS cmd
      if pyStartsWith c "-" then acc ++ ["\t" ++ pyDropS c 1 ++ " || true"]
      else acc ++ ["\t" ++ c] ++ _add_success_check "stop")
    []

/-- Embeds `generate_stop_function`. -/
def generate_stop_function (cfg : Config) : Except PyErr (List String) := do
  let execStop := get_config_option cfg "Service" "ExecStop"
  let body ←
    if optTruthy execStop then do
      let lines := (pySplitSepS " ; " (execStop.getD "")).map fun cmd =>
        let c := pyStripS cmd
        "\t" ++ (if pyStartsWith c "-" then pyDropS c 1 else c)
      let tc ← _add_timeout_check cfg "stop"
      pure (lines ++ tc)
    else do
      let ep ← get_executable_path cfg
      let ks := get_config_option cfg "Service" "KillSignal"
      let block :=
        if optTruthy (get_config_option cfg "Service" "PIDFile") then
          ["\tif [ -f $PIDFILE ]; then"] ++
          (if optTruthy ks then
            ["\t\tkillproc -p $PIDFILE -s " ++ ks.getD "" ++ " " ++ ep]
          else ["\t\tkillproc -p $PIDFILE " ++ ep]) ++
          ["\telse"] ++
          (if optTruthy ks then
            ["\t\tstart-stop-daemon --stop --signal " ++ ks.getD "" ++
              " --name $(basename " ++ ep ++ ") --oknodo"]
          else
            ["\t\tstart-stop-daemon --stop --name $(basename " ++ ep ++ ") --oknodo"]) ++
          ["\tfi"]
        else
          if optTruthy ks then
            ["\tstart-stop-daemon --stop --signal " ++ ks.getD "" ++
              " --name $(basename " ++ ep ++ ") --oknodo"]
          else
            ["\tstart-stop-daemon --stop --name $(basename " ++ ep ++ ") --oknodo"]
      let tc ← _add_timeout_check cfg "stop"
      pure (block ++ tc)
  let stopPost := get_config_option cfg "Service" "ExecStopPost"
  let postLines := if optTruthy stopPost then stopPostBlock (stopPost.getD "") else []
  pure (["stop() \x7b", "\tlog_daemon_msg \"Stopping $DESC\" \"$prog\""] ++
    body ++ postLines ++ ["\x7d", ""])

/-- Embeds `generate_status_function`. -/
def generate_status_function (cfg : Config) : Except PyErr (List String) := do
  let ep ← get_executable_path cfg
  let body :=
    if optTruthy (get_config_option cfg "Service" "PIDFile") then
      ["\tif [ -f $PIDFILE ]; then",
       "\t\tstatus_of_proc -p $PIDFILE " ++ ep ++ " \"$prog\"",
       "\telse",
       "\t\tstatus_of_proc " ++ ep ++ " \"$prog\"",
       "\tfi"]
    else ["\tstatus_of_proc " ++ ep ++ " \"$prog\""]
  pure (["status() \x7b"] ++ body ++ ["\x7d", ""])

/-- Embeds `generate_reload_function`: emits nothing at all when `ExecReload` is
falsy (absent or empty). -/
def generate_reload_function (cfg : Config) : List String :=
  let er := get_config_option cfg "Service" "ExecReload"
  if optTruthy er = false then []
  else
    ["reload() \x7b", "\tlog_daemon_msg \"Reloading $DESC\" \"$prog\""] ++
    (pySplitSepS " ; " (er.getD "")).foldl
      (fun acc cmd =>
        let c := pyStripS cmd
        let opt := pyStartsWith c "-"
        let c2 := if opt then pyDropS c 1 else c
        acc ++ ["\t" ++ c2] ++ (if !opt then _add_success_check "reload" else []))
      [] ++
    ["\texit 0", "\x7d", ""]

/-- Embeds `generate_force_reload_function`. -/
def generate_force_reload_function (cfg : Config) : List String :=
  ["force_reload() \x7b"] ++
  (if optTruthy (get_config_option cfg "Service" "ExecReload") then
    ["\treload", "\tif [ $? -ne 0 ]; then", "\t\trestart", "\tfi"]
  else ["\tstop", "\tstart"]) ++
  ["\x7d", ""]

/-- The dispatch table with the reload entries (used when
`get_config_option(..., "ExecReload")` is not None, i.e. the key exists —
even with an empty value). -/
def caseWithReload : List String :=
  ["case \"$1\" in", "\tstart)", "\t\tstart", "\t\t;;",
   "\tstop)", "\t\tstop", "\t\t;;",
   "\tstatus)", "\t\tstatus", "\t\t;;",
   "\tforce-reload)", "\t\tforce_reload", "\t\t;;",
   "\trestart)", "\t\tstop", "\t\tsleep 2", "\t\tstart", "\t\t;;",
   "\treload)", "\t\treload", "\t\t;;",
   "\t*)",
   "\t\techo \"Usage: $0 \x7bstart|stop|status|reload|force-reload|restart\x7d\"",
   "\t\texit 2", "esac"]

/-- The dispatch table without reload. -/
def caseNoReload : List String :=
  ["case \"$1\" in", "\tstart)", "\t\tstart", "\t\t;;",
   "\tstop)", "\t\tstop", "\t\t;;",
   "\tstatus)", "\t\tstatus", "\t\t;;",
   "\tforce-reload)", "\t\tforce_reload", "\t\t;;",
   "\trestart)", "\t\tstop", "\t\tsleep 2", "\t\tstart", "\t\t;;",
   "\t*)",
   "\t\techo \"Usage: $0 \x7bstart|stop|status|force-reload|restart\x7d\"",
   "\t\texit 2", "esac"]

/-- Embeds `generate_case_statement` (`has_reload` is an `is not None` check). -/
def generate_case_statement (cfg : Config) : List String :=
  if (get_config_option cfg "Service" "ExecReload").isSome then caseWithReload
  else caseNoReload

/-- Embeds `generate_init_script`: the complete emitted script. -/
def generate_init_script (σ : SetOrder) (ctx : Ctx) (cfg : Config) :
    Except PyErr (List String) := do
  let hdr ← generate_lsb_header σ ctx cfg
  let vars := generate_script_variables ctx cfg
  let st ← generate_start_function cfg
  let sp ← generate_stop_function cfg
  let sts ← generate_status_function cfg
  let rl := generate_reload_function cfg
  let frl := generate_force_reload_function cfg
  let cs := generate_case_statement cfg
  pure (["#!/bin/sh"] ++ hdr ++ [""] ++ vars ++ [""] ++ st ++ sp ++ sts ++
    rl ++ frl ++ cs)

/-- The whole conversion: `parse_service_file` then
`generate_init_script` (as run by `main` for a valid input file). -/
def convert (σ : SetOrder) (basename : String) (lines : List String) :
    Except PyErr (List String) := do
  let pr ← parse_service_file basename lines
  generate_init_script σ pr.1 pr.2

/-- The canonical set ordering used in concrete evaluations: first
occurrences in list order (one admissible iteration order of a Python
set built from the list). -/
def canonOrder : SetOrder := fun l => l.dedup

/-- A valid set ordering: on every list it returns some ordering of the
list's distinct elements (what iterating a Python `set` built from the
list can yield). -/
def ValidOrder (σ : SetOrder) : Prop := ∀ l : List String, (σ l).Perm l.dedup

/-- Two output lines agree up to dependency-token order: they are equal,
or they are the same Required-Start / Required-Stop / Should-Start header
field with permuted facility tokens. -/
def depLineRel (a b : String) : Prop :=
  a = b ∨
    ∃ ws1 ws2 : List String, ws1.Perm ws2 ∧
      ((a = "# Required-Start:\t" ++ joinSp ws1 ∧ b = "# Required-Start:\t" ++ joinSp ws2) ∨
       (a = "# Required-Stop:\t" ++ joinSp ws1 ∧ b = "# Required-Stop:\t" ++ joinSp ws2) ∨
       (a = "# Should-Start:\t" ++ joinSp ws1 ∧ b = "# Should-Start:\t" ++ joinSp ws2))

/-- Agreement of two conversion outcomes: identical errors, or line lists
related pointwise by `r`. -/
def exceptAgree (r : List String → List String → Prop) :
    Except PyErr (List String) → Except PyErr (List String) → Prop
  | .error e1, .error e2 => e1 = e2
  | .ok l1, .ok l2 => r l1 l2
  | _, _ => False

/-- The loaded document has no `[Service]` section (or did not even
parse): the condition under which `parse_service_file` must fail. -/
def noServiceCond (r : Except PyErr (Ctx × Config)) : Bool :=
  match r with
  | .ok pr => !hasSection pr.2 "Service"
  | .error _ => true

/-!  Helper lemmas about the Python string primitives, used by the
specifier-substitution claims.  Throughout, a specifier pattern is the
two-character list `['%', c]`. -/

theorem isPre_spec_false {c x : Char} (t : List Char) (hx : x ≠ '%') :
    isPre ['%', c] (x :: t) = false := by
  simp only [isPre]
  rw [if_neg (fun h => hx h.symm)]

theorem contains_spec_false {c : Char} {s : List Char} (hs : '%' ∉ s) :
    pyContainsL ['%', c] s = false := by
  induction s with
  | nil => rfl
  | cons x t ih =>
    have hx : x ≠ '%' := fun h => hs (h ▸ List.mem_cons_self x t)
    have ht : '%' ∉ t := fun h => hs (List.mem_cons_of_mem x h)
    simp [pyContainsL, isPre_spec_false t hx, ih ht]

theorem pyReplaceFuel_congr {pat rep : List Char} :
    ∀ (f1 f2 : Nat) (s : List Char), s.length ≤ f1 → s.length ≤ f2 →
      pyReplaceFuel pat rep f1 s = pyReplaceFuel pat rep f2 s := by
  intro f1
  induction f1 with
  | zero =>
    intro f2 s h1 _
    have hs : s = [] := List.eq_nil_of_length_eq_zero (Nat.le_zero.mp h1)
    subst hs
    cases f2 <;> rfl
  | succ g ih =>
    intro f2 s h1 h2
    cases s with
    | nil => cases f2 <;> rfl
    | cons x t =>
      cases f2 with
      | zero => simp at h2
      | succ g2 =>
        simp only [pyReplaceFuel]
        have h1t : t.length ≤ g := by
          simp only [List.length_cons] at h1
          omega
        have h2t : t.length ≤ g2 := by
          simp only [List.length_cons] at h2
          omega
        by_cases hc : pat ≠ [] ∧ isPre pat (x :: t) = true
        · rw [if_pos hc, if_pos hc]
          have hlen : ((x :: t).drop pat.length).length ≤ t.length := by
            have hp := List.length_pos.mpr hc.1
            simp only [List.length_drop, List.length_cons]
            omega
          rw [ih g2 _ (le_trans hlen h1t) (le_trans hlen h2t)]
        · rw [if_neg hc, if_neg hc, ih g2 t h1t h2t]

theorem pyReplaceL_cons (pat rep : List Char) (x : Char) (t : List Char) :
    pyReplaceL pat rep (x :: t) =
      if pat ≠ [] ∧ isPre pat (x :: t) = true then
        rep ++ pyReplaceL pat rep ((x :: t).drop pat.length)
      else x :: pyReplaceL pat rep t := by
  show pyReplaceFuel pat rep (x :: t).length (x :: t) = _
  simp only [List.length_cons, pyReplaceFuel]
  by_cases hc : pat ≠ [] ∧ isPre pat (x :: t) = true
  · rw [if_pos hc, if_pos hc]
    unfold pyReplaceL
    have hlen : ((x :: t).drop pat.length).length ≤ t.length := by
      have hp := List.length_pos.mpr hc.1
      simp only [List.length_drop, List.length_cons]
      omega
    rw [pyReplaceFuel_congr t.length _ _ hlen (le_refl _)]
  · rw [if_neg hc, if_neg hc]
    rfl

theorem replace_eq_of_contains_false {pat rep : List Char} :
    ∀ {s : List Char}, pyContainsL pat s = false → pyReplaceL pat rep s = s
  | [], _ => rfl
  | x :: t, h => by
    have hsplit : (isPre pat (x :: t) || pyContainsL pat t) = false := h
    have h1 : isPre pat (x :: t) = false := by
      cases hp : isPre pat (x :: t) <;> simp_all
    have h2 : pyContainsL pat t = false := by
      cases hp : pyContainsL pat t <;> simp_all
    rw [pyReplaceL_cons]
    simp only [h1]
    simp [replace_eq_of_contains_false h2]

theorem replace_spec_append {c : Char} {rep : List Char} :
    ∀ {a : List Char} (s : List Char), '%' ∉ a →
      pyReplaceL ['%', c] rep (a ++ s) = a ++ pyReplaceL ['%', c] rep s
  | [], s, _ => rfl
  | x :: a, s, ha => by
    have hx : x ≠ '%' := fun h => ha (h ▸ List.mem_cons_self x a)
    have ha2 : '%' ∉ a := fun h => ha (List.mem_cons_of_mem x h)
    rw [List.cons_append, pyReplaceL_cons]
    simp only [isPre_spec_false _ hx]
    simp [replace_spec_append s ha2]

theorem replace_spec_hit {c : Char} {rep b : List Char} :
    pyReplaceL ['%', c] rep ('%' :: c :: b) = rep ++ pyReplaceL ['%', c] rep b := by
  rw [pyReplaceL_cons]
  simp [isPre]

theorem contains_spec_cross {q c : Char} {a b : List Char} (ha : '%' ∉ a)
    (hc : c ≠ q) (hcp : c ≠ '%') (hb : '%' ∉ b) :
    pyContainsL ['%', q] (a ++ '%' :: c :: b) = false := by
  induction a with
  | nil =>
    have h1 : isPre ['%', q] ('%' :: c :: b) = false := by
      simp only [isPre, if_true]
      rw [if_neg (fun h => hc h.symm)]
    simp only [List.nil_append, pyContainsL, h1, isPre_spec_false b hcp,
      contains_spec_false hb, Bool.or_self, Bool.or_false, Bool.false_or]
  | cons x t ih =>
    have hx : x ≠ '%' := fun h => ha (h ▸ List.mem_cons_self x t)
    have ht : '%' ∉ t := fun h => ha (List.mem_cons_of_mem x h)
    simp [pyContainsL, isPre_spec_false _ hx, ih ht]

theorem replace_spec_token {c : Char} {rep a b : List Char} (ha : '%' ∉ a)
    (hb : '%' ∉ b) :
    pyReplaceL ['%', c] rep (a ++ '%' :: c :: b) = a ++ rep ++ b := by
  rw [replace_spec_append _ ha, replace_spec_hit,
    replace_eq_of_contains_false (contains_spec_false hb), List.append_assoc]

theorem specStep_eq_replace (res : List Char) (p : Char × String) :
    specStep res p = pyReplaceL ['%', p.1] p.2.data res := by
  unfold specStep
  by_cases h : pyContainsL ['%', p.1] res = true
  · simp [h]
  · have h2 : pyContainsL ['%', p.1] res = false := by
      cases hx : pyContainsL ['%', p.1] res <;> simp_all
    simp [h2, replace_eq_of_contains_false h2]

theorem foldl_specStep_nomem {s : List Char} (hs : '%' ∉ s) :
    ∀ ps : List (Char × String), ps.foldl specStep s = s
  | [] => rfl
  | p :: ps => by
    have h1 : specStep s p = s := by
      unfold specStep
      simp [contains_spec_false hs]
    rw [List.foldl_cons, h1, foldl_specStep_nomem hs ps]

theorem foldl_specStep_token {c : Char} {v : String} {a b : List Char}
    (hc : c ≠ '%') (ha : '%' ∉ a) (hb : '%' ∉ b) (hv : '%' ∉ v.data) :
    ∀ (pre : List (Char × String)) (post : List (Char × String)),
      (∀ q ∈ pre, q.1 ≠ c) →
      (pre ++ (c, v) :: post).foldl specStep (a ++ '%' :: c :: b) = a ++ v.data ++ b
  | [], post, _ => by
    have h1 : specStep (a ++ '%' :: c :: b) (c, v) = a ++ v.data ++ b := by
      rw [specStep_eq_replace]
      exact replace_spec_token ha hb
    have h2 : '%' ∉ a ++ v.data ++ b := by
      intro h
      rcases List.mem_append.mp h with h | h
      · rcases List.mem_append.mp h with h | h
        · exact ha h
        · exact hv h
      · exact hb h
    rw [List.nil_append, List.foldl_cons, h1, foldl_specStep_nomem h2 post]
  | q :: pre, post, hpre => by
    have hq : q.1 ≠ c := hpre q (List.mem_cons_self q pre)
    have hstep : specStep (a ++ '%' :: c :: b) q = a ++ '%' :: c :: b := by
      rw [specStep_eq_replace]
      exact replace_eq_of_contains_false
        (contains_spec_cross ha (fun h => hq h.symm) hc hb)
    rw [List.cons_append, List.foldl_cons, hstep]
    exact foldl_specStep_token hc ha hb hv pre post
      (fun r hr => hpre r (List.mem_cons_of_mem q hr))

theorem splitCharGo_mem {c : Char} :
    ∀ {l cur : List Char} {x y : List Char} {r : List (List Char)},
      pySplitCharGo c l cur = x :: y :: r → c ∈ l
  | [], cur, x, y, r, h => by simp [pySplitCharGo] at h
  | z :: t, cur, x, y, r, h => by
    by_cases hz : z = c
    · exact hz ▸ List.mem_cons_self z t
    · rw [pySplitCharGo, if_neg hz] at h
      exact List.mem_cons_of_mem z (splitCharGo_mem h)

theorem splitCharL_mem {c : Char} {l : List Char} {x y : List Char}
    {r : List (List Char)} (h : pySplitCharL c l = x :: y :: r) : c ∈ l :=
  splitCharGo_mem h

theorem replace_spec_skip {x c : Char} {rep : List Char} (hcx : c ≠ x)
    (hcp : c ≠ '%') {a : List Char} (X : List Char) (ha : '%' ∉ a) :
    pyReplaceL ['%', x] rep (a ++ '%' :: c :: X) =
      a ++ '%' :: c :: pyReplaceL ['%', x] rep X := by
  rw [replace_spec_append _ ha]
  congr 1
  rw [pyReplaceL_cons]
  have h1 : isPre ['%', x] ('%' :: c :: X) = false := by
    simp only [isPre, if_true]
    rw [if_neg (fun h => hcx h.symm)]
  rw [if_neg (by simp [h1])]
  congr 1
  rw [pyReplaceL_cons]
  rw [if_neg (by simp [isPre_spec_false X hcp])]

theorem nomem_subTokText {rep : List Char} (hrep : '%' ∉ rep) :
    ∀ (ps : List (List Char × Char)) (tail : List Char),
      (∀ q ∈ ps, '%' ∉ q.1) → '%' ∉ tail → '%' ∉ subTokText rep ps tail
  | [], _, _, ht => ht
  | (a, c) :: ps, tail, hps, ht => by
    have ha : '%' ∉ a := (hps _ (List.mem_cons_self _ _))
    have hps2 : ∀ q ∈ ps, '%' ∉ q.1 := fun q hq => hps q (List.mem_cons_of_mem _ hq)
    intro hmem
    rcases List.mem_append.mp hmem with hmem | hmem
    · rcases List.mem_append.mp hmem with hmem | hmem
      · exact ha hmem
      · exact hrep hmem
    · exact nomem_subTokText hrep ps tail hps2 ht hmem

theorem replace_two_pass {rep : List Char} (hrep : '%' ∉ rep) :
    ∀ (ps : List (List Char × Char)) (tail : List Char),
      (∀ q ∈ ps, '%' ∉ q.1 ∧ (q.2 = 'i' ∨ q.2 = 'I')) → '%' ∉ tail →
      pyReplaceL ['%', 'I'] rep (pyReplaceL ['%', 'i'] rep (tokText ps tail)) =
        subTokText rep ps tail
  | [], tail, _, ht => by
    rw [tokText, replace_eq_of_contains_false (contains_spec_false ht),
      replace_eq_of_contains_false (contains_spec_false ht)]
    rfl
  | (a, c) :: ps, tail, hps, ht => by
    obtain ⟨ha, hc⟩ := hps _ (List.mem_cons_self _ _)
    have hps2 : ∀ q ∈ ps, '%' ∉ q.1 ∧ (q.2 = 'i' ∨ q.2 = 'I') :=
      fun q hq => hps q (List.mem_cons_of_mem _ hq)
    have hih := replace_two_pass hrep ps tail hps2 ht
    rw [tokText, subTokText]
    rcases hc with hc | hc
    · have hc2 : c = 'i' := hc
      subst hc2
      rw [replace_spec_append _ ha, replace_spec_hit]
      have har : '%' ∉ a ++ rep := by
        intro h
        rcases List.mem_append.mp h with h | h
        · exact ha h
        · exact hrep h
      calc pyReplaceL ['%', 'I'] rep
            (a ++ (rep ++ pyReplaceL ['%', 'i'] rep (tokText ps tail)))
          = (a ++ rep) ++ pyReplaceL ['%', 'I'] rep
              (pyReplaceL ['%', 'i'] rep (tokText ps tail)) := by
            rw [← List.append_assoc, replace_spec_append _ har]
        _ = a ++ rep ++ subTokText rep ps tail := by rw [hih]
    · have hc2 : c = 'I' := hc
      subst hc2
      rw [replace_spec_skip (by decide) (by decide) _ ha,
        replace_spec_append _ ha, replace_spec_hit, hih]
      rw [List.append_assoc]

/-!  Claim theorems. -/

/-- C1: the claim says duplicate keys are merged into one occurrence whose
value is the space-joined concatenation (`Environment=A=1` and
`Environment=B=2` become value `"A=1 B=2"`, and both assignments are
exported).  The code computes that merged value into `section_data` but
never writes it back: the preprocessed text keeps only the first
occurrence with its original value `A=1`, the parsed document stores only
`A=1`, and only `export A=1` is emitted — `B=2` is silently lost,
contradicting both the claim and the function's own docstring
("Handle duplicate keys ... by merging values"). -/
theorem C1_duplicate_environment_dropped :
    preprocess_service_file
        ["[Service]", "ExecStart=/bin/true", "Environment=A=1", "Environment=B=2"] =
      ["[Service]", "ExecStart=/bin/true", "Environment=A=1"] ∧
    parse_service_file "env.service"
        ["[Service]", "ExecStart=/bin/true", "Environment=A=1", "Environment=B=2"] =
      .ok (⟨"env", false, "", ""⟩,
        [("Service", [("execstart", "/bin/true"), ("environment", "A=1")])]) ∧
    "export A=1" ∈ generate_script_variables ⟨"env", false, "", ""⟩
        [("Service", [("execstart", "/bin/true"), ("environment", "A=1")])] ∧
    "export B=2" ∉ generate_script_variables ⟨"env", false, "", ""⟩
        [("Service", [("execstart", "/bin/true"), ("environment", "A=1")])] := by
  refine ⟨rfl, rfl, by decide, by decide⟩

/-- C2: the claim resolves the start timeout as `TimeoutStartSec` else
`TimeoutSec` and promises a one-second poll loop bounded by that value.
In the code `_add_timeout_check` reads only `TimeoutSec`: with
`TimeoutStartSec=30` (and `TimeoutSec` unset) generation succeeds but
emits a single immediate success check and no loop at all, even though the
variable block resolved `STARTTIMEOUT=30`; and with `TimeoutSec=30` the
method evaluates the undefined name `timeout_var` and generation dies
with a NameError before any loop is emitted. -/
theorem C2_timeout_resolution_broken :
    (∃ L, generate_init_script canonOrder ⟨"t", false, "", ""⟩
        [("Service", [("execstart", "/bin/foo"), ("timeoutstartsec", "30")])] = .ok L ∧
      "STARTTIMEOUT=30" ∈ L ∧
      "\twhile [ $TIMEOUT -gt 0 ]; do" ∉ L ∧
      "\tif [ $? -ne 0 ]; then" ∈ L) ∧
    generate_init_script canonOrder ⟨"t", false, "", ""⟩
        [("Service", [("execstart", "/bin/foo"), ("timeoutsec", "30")])] =
      .error .nameErrorTimeoutVar := by
  exact ⟨⟨_, rfl, by decide, by decide, by decide⟩, rfl⟩

/-- C3 counterexample: a parsed unit whose `[Service]` section sets
`TimeoutSec` to the empty string — a value other than `"0"` — for which
full script generation nevertheless succeeds (Python `not ""` is true, so
`_add_timeout_check` takes the harmless branch).  This refutes the claim
that generation succeeds only when `TimeoutSec` is absent or `"0"`. -/
theorem C3_counterexample_empty_timeout :
    parse_service_file "t.service" ["[Service]", "ExecStart=/bin/true", "TimeoutSec="] =
      .ok (⟨"t", false, "", ""⟩,
        [("Service", [("execstart", "/bin/true"), ("timeoutsec", "")])]) ∧
    get_config_option [("Service", [("execstart", "/bin/true"), ("timeoutsec", "")])]
        "Service" "TimeoutSec" = some "" ∧
    ("" : String) ≠ "0" ∧
    (generate_init_script canonOrder ⟨"t", false, "", ""⟩
        [("Service", [("execstart", "/bin/true"), ("timeoutsec", "")])]).isOk = true := by
  exact ⟨rfl, rfl, by decide, rfl⟩

/-- C4 counterexample: for the template unit `x@%p.service` the instance
string is `%p`; substituting the text `%i` first yields `%p` (the
instance), which the later `%p` pass re-scans and rewrites to the prefix
`x`.  The single-tokenizing-pass behaviour demanded by the claim would
leave `%p` — so replacement text is re-scanned, refuting the claim as
stated. -/
theorem C4_counterexample_rescan :
    parseCtxName "x@%p.service" = .ok ⟨"x@%p", true, "%p", "x"⟩ ∧
    replaceAllList ⟨"x@%p", true, "%p", "x"⟩ "%i".data = "x".data ∧
    singlePassSpec ⟨"x@%p", true, "%p", "x"⟩ "%i".data = "%p".data ∧
    replaceAllList ⟨"x@%p", true, "%p", "x"⟩ "%i".data ≠
      singlePassSpec ⟨"x@%p", true, "%p", "x"⟩ "%i".data := by
  exact ⟨rfl, rfl, rfl, by decide⟩

/-- C7 counterexample: a unit with `After=network.target syslog.target`
whose `ExecStart` executable lives under `/usr`: `_generate_dependencies`
additionally appends `$remote_fs`, so the required set is not equal to
`{$syslog, $local_fs, $network}` as the claim demands for every unit with
that `After` value. -/
theorem C7_counterexample_usr_remote_fs :
    requiredDepsList
        [("Unit", [("after", "network.target syslog.target")]),
         ("Service", [("execstart", "/usr/bin/daemon")])] =
      .ok ["$syslog", "$local_fs", "$remote_fs", "$network"] ∧
    (["$syslog", "$local_fs", "$remote_fs", "$network"] : List String).toFinset ≠
      ({"$syslog", "$local_fs", "$network"} : Finset String) ∧
    get_config_option
        [("Unit", [("after", "network.target syslog.target")]),
         ("Service", [("execstart", "/usr/bin/daemon")])] "Unit" "After" =
      some "network.target syslog.target" := by
  exact ⟨rfl, by decide, rfl⟩

/-- C8 counterexample: with `ExecReload=/bin/reload-foo` present, the
emitted `force_reload` falls back to the single command `restart` — the
body contains no `stop` and no `start` command, so the fallback is not "a
full stop followed by start" as claimed (and the script defines no
`restart` function; that verb exists only as a dispatcher case).
Moreover, with `ExecReload=` present but empty, the dispatch table gains a
`reload` entry while no `reload` procedure is emitted at all, refuting
"ExecReload present implies both exist". -/
theorem C8_counterexample_force_reload :
    generate_force_reload_function
        [("Service", [("execstart", "/bin/foo"), ("execreload", "/bin/reload-foo")])] =
      ["force_reload() \x7b", "\treload", "\tif [ $? -ne 0 ]; then", "\t\trestart",
       "\tfi", "\x7d", ""] ∧
    "\tstop" ∉ generate_force_reload_function
        [("Service", [("execstart", "/bin/foo"), ("execreload", "/bin/reload-foo")])] ∧
    "\tstart" ∉ generate_force_reload_function
        [("Service", [("execstart", "/bin/foo"), ("execreload", "/bin/reload-foo")])] ∧
    generate_reload_function
        [("Service", [("execstart", "/bin/foo"), ("execreload", "")])] = [] ∧
    generate_case_statement
        [("Service", [("execstart", "/bin/foo"), ("execreload", "")])] =
      caseWithReload := by
  exact ⟨rfl, by decide, by decide, rfl, rfl⟩

/-- C9 counterexample: the guard emitted for `ConditionPathExists=/p` is
`[ ! -s /p ]` — the file-exists-and-non-empty test, not a bare existence
test — and is byte-identical to the guard emitted for
`ConditionFileNotEmpty=/p`.  Two conditions the claim maps to different
predicates produce the same generated test, refuting the claimed
"respectively" mapping (the exit-0-on-failure part does hold). -/
theorem C9_counterexample_path_exists_guard :
    generate_start_function [("Unit", [("conditionpathexists", "/p")])] =
      .ok ["start() \x7b", "\tlog_daemon_msg \"Starting $DESC\" \"$prog\"",
        "\tif [ ! -s /p ]; then", "\t\tlog_end_msg 1", "\t\texit 0", "\tfi",
        "\x7d", ""] ∧
    generate_start_function [("Unit", [("conditionpathexists", "/p")])] =
      generate_start_function [("Unit", [("conditionfilenotempty", "/p")])] ∧
    ([("Unit", [("conditionpathexists", "/p")])] : Config) ≠
      [("Unit", [("conditionfilenotempty", "/p")])] := by
  exact ⟨rfl, rfl, by decide⟩

/-- Helper: `optTruthy` of a present non-empty value. -/
theorem optTruthy_some_ne {v : String} (h : v ≠ "") : optTruthy (some v) = true := by
  simp [optTruthy, h]

/-- Helper: a falsy option defaults to the empty string. -/
theorem getD_empty_of_not_truthy {o : Option String} (h : optTruthy o = false) :
    o.getD "" = "" := by
  cases o with
  | none => rfl
  | some v =>
    simp only [optTruthy, bne_eq_false_iff_eq] at h
    simp [h]

/-- Helper: with `TimeoutSec` present, non-empty and not `"0"`,
`_add_timeout_check` always fails (IndexError from the executable lookup
or the `timeout_var` NameError). -/
theorem addTimeout_isOk_false {cfg : Config} {v : String}
    (hv : get_config_option cfg "Service" "TimeoutSec" = some v) (hne : v ≠ "")
    (hnz : v ≠ "0") (action : String) :
    (_add_timeout_check cfg action).isOk = false := by
  unfold _add_timeout_check
  rw [hv]
  have hguard : (some v = some "0" || optTruthy (some v) = false) = False := by
    simp [optTruthy_some_ne hne, hnz]
  rw [if_neg (by simp [optTruthy_some_ne hne, hnz])]
  cases hx : get_executable_path cfg <;> simp [bind, Except.bind, hx, Except.isOk, Except.toBool]

/-- Helper: under the same hypotheses the stop function (which always
reaches `_add_timeout_check`) fails. -/
theorem stopFunction_isOk_false {cfg : Config} {v : String}
    (hv : get_config_option cfg "Service" "TimeoutSec" = some v) (hne : v ≠ "")
    (hnz : v ≠ "0") : (generate_stop_function cfg).isOk = false := by
  have htc := addTimeout_isOk_false hv hne hnz "stop"
  unfold generate_stop_function
  by_cases hes : optTruthy (get_config_option cfg "Service" "ExecStop") = true
  · rw [if_pos hes]
    cases htcx : _add_timeout_check cfg "stop" with
    | error e => simp [bind, Except.bind, htcx, Except.isOk, Except.toBool]
    | ok l => rw [htcx] at htc; simp [Except.isOk, Except.toBool] at htc
  · rw [if_neg hes]
    cases hx : get_executable_path cfg with
    | error e => simp [bind, Except.bind, hx, Except.isOk, Except.toBool]
    | ok p =>
      cases htcx : _add_timeout_check cfg "stop" with
      | error e => simp [bind, Except.bind, hx, htcx, Except.isOk, Except.toBool]
      | ok l => rw [htcx] at htc; simp [Except.isOk, Except.toBool] at htc

/-- Helper: if the stop function fails, the whole script generation
fails (the script is never completed). -/
theorem initScript_isOk_false_of_stop {σ : SetOrder} {ctx : Ctx} {cfg : Config}
    (h : (generate_stop_function cfg).isOk = false) :
    (generate_init_script σ ctx cfg).isOk = false := by
  unfold generate_init_script
  cases h1 : generate_lsb_header σ ctx cfg with
  | error e => simp [bind, Except.bind, h1, Except.isOk, Except.toBool]
  | ok hdr =>
    cases h2 : generate_start_function cfg with
    | error e => simp [bind, Except.bind, h1, h2, Except.isOk, Except.toBool]
    | ok st =>
      cases h3 : generate_stop_function cfg with
      | error e => simp [bind, Except.bind, h1, h2, h3, Except.isOk, Except.toBool]
      | ok sp => rw [h3] at h; simp [Except.isOk, Except.toBool] at h

/-- C3 (amended): for every parsed unit whose `[Service]` section sets
`TimeoutSec` to a *non-empty* value other than `"0"`, full script
generation raises an unhandled Python error before the script is
completed (normally the NameError from the undefined `timeout_var` in the
timeout-check block, reached at the latest from the stop function, which
always applies the timeout check; an `ExecStart=-` unit dies slightly
earlier of the executable-lookup IndexError).  Hence generation succeeds
only when `TimeoutSec` is absent, empty, or `"0"` — the original claim
wrongly counted an empty `TimeoutSec=` as failing, see the
counterexample. -/
theorem C3_nonempty_timeout_errors (σ : SetOrder) (ctx : Ctx) (cfg : Config)
    (v : String) (hv : get_config_option cfg "Service" "TimeoutSec" = some v)
    (hne : v ≠ "") (hnz : v ≠ "0") :
    (generate_init_script σ ctx cfg).isOk = false :=
  initScript_isOk_false_of_stop (stopFunction_isOk_false hv hne hnz)

/-- Witness for `C3_nonempty_timeout_errors` at a concrete unit with
`TimeoutSec=7`. -/
theorem C3_nonempty_timeout_errors_witness :
    get_config_option [("Service", [("execstart", "/bin/x"), ("timeoutsec", "7")])]
        "Service" "TimeoutSec" = some "7" ∧
    (generate_init_script canonOrder ⟨"t", false, "", ""⟩
        [("Service", [("execstart", "/bin/x"), ("timeoutsec", "7")])]).isOk = false :=
  ⟨rfl, C3_nonempty_timeout_errors canonOrder ⟨"t", false, "", ""⟩
    [("Service", [("execstart", "/bin/x"), ("timeoutsec", "7")])] "7" rfl
    (by decide) (by decide)⟩

/-- C4 (amended): for every template unit, specifier substitution is a
chain of seven global replacement passes in the fixed order
`%i %I %p %P %f %u %U`, mapping to instance, instance, prefix, prefix,
`/`+instance, service-name, service-name.  Each pass does not re-scan its
own replacement text, but a later pass does scan text introduced by an
earlier pass (see the counterexample), so the claimed
single-tokenizing-pass behaviour holds only when replacement values
introduce no `%`: under that proviso, a token occurrence surrounded by
`%`-free text is replaced exactly once with its mapped value. -/
theorem C4_specifier_substitution_amended (ctx : Ctx)
    (htemp : ctx.templateService = true) (t : Char) (v : String)
    (hm : (t, v) ∈ specPairs ctx) (hv : '%' ∉ v.data) (a b : List Char)
    (ha : '%' ∉ a) (hb : '%' ∉ b) :
    replaceAllList ctx (a ++ '%' :: t :: b) = a ++ v.data ++ b := by
  unfold replaceAllList
  rw [if_pos htemp]
  simp only [specPairs, List.mem_cons, List.not_mem_nil, or_false,
    Prod.mk.injEq] at hm
  rcases hm with ⟨rfl, rfl⟩ | ⟨rfl, rfl⟩ | ⟨rfl, rfl⟩ | ⟨rfl, rfl⟩ |
    ⟨rfl, rfl⟩ | ⟨rfl, rfl⟩ | ⟨rfl, rfl⟩
  · have hsh : specPairs ctx = [] ++ ('i', ctx.instanceName) ::
        [('I', ctx.instanceName), ('p', ctx.prefixName), ('P', ctx.prefixName), ('f', "/" ++ ctx.instanceName), ('u', ctx.serviceName), ('U', ctx.serviceName)] := rfl
    rw [hsh]
    exact foldl_specStep_token (by decide) ha hb hv _ _
      (by intro q hq; simp at hq)
  · have hsh : specPairs ctx = [('i', ctx.instanceName)] ++ ('I', ctx.instanceName) ::
        [('p', ctx.prefixName), ('P', ctx.prefixName), ('f', "/" ++ ctx.instanceName), ('u', ctx.serviceName), ('U', ctx.serviceName)] := rfl
    rw [hsh]
    refine foldl_specStep_token (by decide) ha hb hv _ _ ?_
    intro q hq
    simp only [List.mem_cons, List.not_mem_nil, or_false] at hq
    subst hq
    exact (by decide : ('i' : Char) ≠ 'I')
  · have hsh : specPairs ctx = [('i', ctx.instanceName), ('I', ctx.instanceName)] ++ ('p', ctx.prefixName) ::
        [('P', ctx.prefixName), ('f', "/" ++ ctx.instanceName), ('u', ctx.serviceName), ('U', ctx.serviceName)] := rfl
    rw [hsh]
    refine foldl_specStep_token (by decide) ha hb hv _ _ ?_
    intro q hq
    simp only [List.mem_cons, List.not_mem_nil, or_false] at hq
    rcases hq with h | h
    · subst h
      exact (by decide : ('i' : Char) ≠ 'p')
    · subst h
      exact (by decide : ('I' : Char) ≠ 'p')
  · have hsh : specPairs ctx = [('i', ctx.instanceName), ('I', ctx.instanceName), ('p', ctx.prefixName)] ++ ('P', ctx.prefixName) ::
        [('f', "/" ++ ctx.instanceName), ('u', ctx.serviceName), ('U', ctx.serviceName)] := rfl
    rw [hsh]
    refine foldl_specStep_token (by decide) ha hb hv _ _ ?_
    intro q hq
    simp only [List.mem_cons, List.not_mem_nil, or_false] at hq
    rcases hq with h | h | h
    · subst h
      exact (by decide : ('i' : Char) ≠ 'P')
    · subst h
      exact (by decide : ('I' : Char) ≠ 'P')
    · subst h
      exact (by decide : ('p' : Char) ≠ 'P')
  · have hsh : specPairs ctx = [('i', ctx.instanceName), ('I', ctx.instanceName), ('p', ctx.prefixName), ('P', ctx.prefixName)] ++ ('f', "/" ++ ctx.instanceName) ::
        [('u', ctx.serviceName), ('U', ctx.serviceName)] := rfl
    rw [hsh]
    refine foldl_specStep_token (by decide) ha hb hv _ _ ?_
    intro q hq
    simp only [List.mem_cons, List.not_mem_nil, or_false] at hq
    rcases hq with h | h | h | h
    · subst h
      exact (by decide : ('i' : Char) ≠ 'f')
    · subst h
      exact (by decide : ('I' : Char) ≠ 'f')
    · subst h
      exact (by decide : ('p' : Char) ≠ 'f')
    · subst h
      exact (by decide : ('P' : Char) ≠ 'f')
  · have hsh : specPairs ctx = [('i', ctx.instanceName), ('I', ctx.instanceName), ('p', ctx.prefixName), ('P', ctx.prefixName), ('f', "/" ++ ctx.instanceName)] ++ ('u', ctx.serviceName) ::
        [('U', ctx.serviceName)] := rfl
    rw [hsh]
    refine foldl_specStep_token (by decide) ha hb hv _ _ ?_
    intro q hq
    simp only [List.mem_cons, List.not_mem_nil, or_false] at hq
    rcases hq with h | h | h | h | h
    · subst h
      exact (by decide : ('i' : Char) ≠ 'u')
    · subst h
      exact (by decide : ('I' : Char) ≠ 'u')
    · subst h
      exact (by decide : ('p' : Char) ≠ 'u')
    · subst h
      exact (by decide : ('P' : Char) ≠ 'u')
    · subst h
      exact (by decide : ('f' : Char) ≠ 'u')
  · have hsh : specPairs ctx = [('i', ctx.instanceName), ('I', ctx.instanceName), ('p', ctx.prefixName), ('P', ctx.prefixName), ('f', "/" ++ ctx.instanceName), ('u', ctx.serviceName)] ++ ('U', ctx.serviceName) ::
        [] := rfl
    rw [hsh]
    refine foldl_specStep_token (by decide) ha hb hv _ _ ?_
    intro q hq
    simp only [List.mem_cons, List.not_mem_nil, or_false] at hq
    rcases hq with h | h | h | h | h | h
    · subst h
      exact (by decide : ('i' : Char) ≠ 'U')
    · subst h
      exact (by decide : ('I' : Char) ≠ 'U')
    · subst h
      exact (by decide : ('p' : Char) ≠ 'U')
    · subst h
      exact (by decide : ('P' : Char) ≠ 'U')
    · subst h
      exact (by decide : ('f' : Char) ≠ 'U')
    · subst h
      exact (by decide : ('u' : Char) ≠ 'U')

/-- Witness for `C4_specifier_substitution_amended`: the `%i` token of a
concrete template context with `%`-free values. -/
theorem C4_specifier_substitution_amended_witness :
    ('i', "bar") ∈ specPairs ⟨"foo@bar", true, "bar", "foo"⟩ ∧
    replaceAllList ⟨"foo@bar", true, "bar", "foo"⟩
        ("X=".data ++ '%' :: 'i' :: "/y".data) =
      "X=".data ++ "bar".data ++ "/y".data :=
  ⟨by decide, C4_specifier_substitution_amended ⟨"foo@bar", true, "bar", "foo"⟩
    rfl 'i' "bar" (by decide) (by decide) "X=".data "/y".data (by decide)
    (by decide)⟩

/-- C5: for every base name and unit text whose loaded document has no
`[Service]` section (or fails to parse at all), the conversion fails with
an error and produces no output lines — `main` catches the parse error and
exits before any generation, so no partial script is emitted. -/
theorem C5_missing_service_section_fails (σ : SetOrder) (basename : String)
    (lines : List String)
    (h : noServiceCond (loadUnitDoc basename lines) = true) :
    ∃ e, convert σ basename lines = .error e := by
  cases hld : loadUnitDoc basename lines with
  | error e =>
    exact ⟨e, by simp [convert, parse_service_file, hld, bind, Except.bind]⟩
  | ok pr =>
    have hs : hasSection pr.2 "Service" = false := by
      rw [hld] at h
      simpa [noServiceCond] using h
    exact ⟨.noServiceSection,
      by simp [convert, parse_service_file, hld, hs, bind, Except.bind]⟩

/-- Witness for `C5_missing_service_section_fails` on a unit file with
only a `[Unit]` section. -/
theorem C5_missing_service_section_fails_witness :
    noServiceCond (loadUnitDoc "a.service" ["[Unit]", "Description=x"]) = true ∧
    ∃ e, convert canonOrder "a.service" ["[Unit]", "Description=x"] =
      Except.error e :=
  ⟨by decide, C5_missing_service_section_fails canonOrder "a.service"
    ["[Unit]", "Description=x"] (by decide)⟩

/-- C6 counterexample: for the base name `x@%p.service` the derived
instance is `%p`, and the `%i` occurrence in the directive text ends up as
`x` — the *prefix* — in the text handed to the structured parser, because
the later `%p` pass rewrites the freshly substituted instance.  So it is
not true that every `%i` occurrence is replaced *with the instance value*
before structured parsing, refuting the claim as stated. -/
theorem C6_counterexample_instance_with_specifier :
    parseCtxName "x@%p.service" = .ok ⟨"x@%p", true, "%p", "x"⟩ ∧
    replaceAllList ⟨"x@%p", true, "%p", "x"⟩ "%i".data = "x".data ∧
    "x".data ≠ "%p".data :=
  ⟨rfl, rfl, by decide⟩

/-- C6 (amended): for every base name whose `.service`-stripped form
contains `@`, loading derives the prefix as the part before the first `@`
and the instance as the part between the first and second `@` (the whole
remainder for a single `@`), marking the unit as a template; an empty
instance portion fails with the template `ValueError`.  The substitution
applied to the preprocessed text before structured parsing begins with the
`%i` and `%I` passes, and replaces *every* `%i` and `%I` occurrence —
any number, mixed — with the instance value, exactly, in any text whose
`%` characters all belong to `%i`/`%I` tokens, provided the instance is
itself `%`-free; an instance containing a later-ordered specifier is
substituted further by the later passes (see the counterexample). -/
theorem C6_template_parsing :
    (∀ (base : String) (pr ins : List Char) (rest : List (List Char)),
      pySplitCharL '@' (stripServiceSuffix base).data = pr :: ins :: rest →
      ins ≠ [] →
      parseCtxName base = .ok ⟨stripServiceSuffix base, true, ⟨ins⟩, ⟨pr⟩⟩) ∧
    (∀ (base : String) (pr : List Char) (rest : List (List Char)),
      pySplitCharL '@' (stripServiceSuffix base).data = pr :: [] :: rest →
      parseCtxName base = .error .templateError) ∧
    (∀ (base : String) (pr ins : List Char) (rest : List (List Char)),
      pySplitCharL '@' (stripServiceSuffix base).data = pr :: ins :: rest →
      ins ≠ [] →
      ∀ (ps : List (List Char × Char)) (tail : List Char),
        (∀ q ∈ ps, '%' ∉ q.1 ∧ (q.2 = 'i' ∨ q.2 = 'I')) → '%' ∉ tail →
        '%' ∉ ins →
        replaceAllList ⟨stripServiceSuffix base, true, ⟨ins⟩, ⟨pr⟩⟩
            (tokText ps tail) = subTokText ins ps tail) := by
  refine ⟨?_, ?_, ?_⟩
  · intro base pr ins rest hsplit hne
    simp only [parseCtxName]
    rw [if_pos (splitCharL_mem hsplit), hsplit]
    simp [hne]
  · intro base pr rest hsplit
    simp only [parseCtxName]
    rw [if_pos (splitCharL_mem hsplit), hsplit]
    simp
  · intro base pr ins rest hsplit hne ps tail hps htail hins
    have hseg : ∀ q ∈ ps, '%' ∉ q.1 := fun q hq => (hps q hq).1
    unfold replaceAllList
    rw [if_pos rfl]
    have hsh : specPairs ⟨stripServiceSuffix base, true, ⟨ins⟩, ⟨pr⟩⟩ =
        ('i', (⟨ins⟩ : String)) :: ('I', (⟨ins⟩ : String)) ::
          [('p', (⟨pr⟩ : String)), ('P', (⟨pr⟩ : String)),
           ('f', "/" ++ (⟨ins⟩ : String)),
           ('u', stripServiceSuffix base), ('U', stripServiceSuffix base)] := rfl
    rw [hsh, List.foldl_cons, List.foldl_cons, specStep_eq_replace,
      specStep_eq_replace]
    show List.foldl specStep
      (pyReplaceL ['%', 'I'] ins (pyReplaceL ['%', 'i'] ins (tokText ps tail)))
      [('p', (⟨pr⟩ : String)), ('P', (⟨pr⟩ : String)),
       ('f', "/" ++ (⟨ins⟩ : String)),
       ('u', stripServiceSuffix base), ('U', stripServiceSuffix base)] =
      subTokText ins ps tail
    rw [replace_two_pass hins ps tail hps htail]
    exact foldl_specStep_nomem (nomem_subTokText hins ps tail hseg htail) _

/-- Witness for `C6_template_parsing` at `foo@bar.service`: template
branch, empty-instance branch at `foo@.service`, and a directive text with
one `%i` and one `%I` occurrence, both replaced by the instance. -/
theorem C6_template_parsing_witness :
    parseCtxName "foo@bar.service" = .ok ⟨"foo@bar", true, "bar", "foo"⟩ ∧
    parseCtxName "foo@.service" = .error .templateError ∧
    replaceAllList ⟨"foo@bar", true, "bar", "foo"⟩
        (tokText [("ExecStart=/bin/x ".data, 'i'), (" --opt ".data, 'I')]
          " -v".data) =
      subTokText "bar".data
        [("ExecStart=/bin/x ".data, 'i'), (" --opt ".data, 'I')] " -v".data ∧
    subTokText "bar".data
        [("ExecStart=/bin/x ".data, 'i'), (" --opt ".data, 'I')] " -v".data =
      "ExecStart=/bin/x bar --opt bar -v".data := by
  refine ⟨?_, ?_, ?_, by decide⟩
  · exact C6_template_parsing.1 "foo@bar.service" "foo".data "bar".data []
      (by decide) (by decide)
  · exact C6_template_parsing.2.1 "foo@.service" "foo".data [] (by decide)
  · exact C6_template_parsing.2.2 "foo@bar.service" "foo".data "bar".data []
      (by decide) (by decide)
      [("ExecStart=/bin/x ".data, 'i'), (" --opt ".data, 'I')] " -v".data
      (by decide) (by decide) (by decide)

/-- C7 (amended): the required-dependency list is seeded with
`{$syslog, $local_fs}`, then each After/Requires token goes through the
fixed table with unrecognized tokens ignored; in particular
`After=network.target syslog.target` (with Requires falsy) yields exactly
the set `{$syslog, $local_fs, $network}` — *provided* the resolved
executable path does not start with `/usr`, which would additionally
insert `$remote_fs` (see the counterexample).  Required-Start and
Required-Stop are emitted from that same set. -/
theorem C7_dependency_set_amended (σ : SetOrder) (cfg : Config) (p : String)
    (hafter : get_config_option cfg "Unit" "After" =
      some "network.target syslog.target")
    (hreq : optTruthy (get_config_option cfg "Unit" "Requires") = false)
    (hexec : get_executable_path cfg = .ok p)
    (husr : (p != "" && pyStartsWith p "/usr") = false) :
    requiredDepsList cfg = .ok ["$syslog", "$local_fs", "$network"] ∧
    (["$syslog", "$local_fs", "$network"] : List String).toFinset =
      ({"$syslog", "$local_fs", "$network"} : Finset String) ∧
    ∃ tail, _generate_dependencies σ cfg = .ok
      (["# Required-Start:\t" ++ joinSp (σ ["$syslog", "$local_fs", "$network"]),
        "# Required-Stop:\t" ++ joinSp (σ ["$syslog", "$local_fs", "$network"])] ++
        tail) := by
  have hreqv : (get_config_option cfg "Unit" "Requires").getD "" = "" :=
    getD_empty_of_not_truthy hreq
  have hR : requiredDepsList cfg = .ok ["$syslog", "$local_fs", "$network"] := by
    unfold requiredDepsList getOptD
    rw [hexec]
    simp only [bind, Except.bind, husr, hafter, hreqv, Bool.false_eq_true,
      if_false]
    rfl
  refine ⟨hR, by decide, ?_⟩
  refine ⟨if shouldDepsList cfg ≠ [] then
    ["# Should-Start:\t" ++ joinSp (σ (shouldDepsList cfg))] else [], ?_⟩
  unfold _generate_dependencies
  rw [hR]
  simp only [bind, Except.bind]
  rfl

/-- Witness for `C7_dependency_set_amended` at a concrete unit whose
executable is under `/bin`. -/
theorem C7_dependency_set_amended_witness :
    requiredDepsList
        [("Unit", [("after", "network.target syslog.target")]),
         ("Service", [("execstart", "/bin/d")])] =
      .ok ["$syslog", "$local_fs", "$network"] ∧
    ∃ tail, _generate_dependencies canonOrder
        [("Unit", [("after", "network.target syslog.target")]),
         ("Service", [("execstart", "/bin/d")])] = .ok
      (["# Required-Start:\t" ++
          joinSp (canonOrder ["$syslog", "$local_fs", "$network"]),
        "# Required-Stop:\t" ++
          joinSp (canonOrder ["$syslog", "$local_fs", "$network"])] ++ tail) := by
  have H := C7_dependency_set_amended canonOrder
    [("Unit", [("after", "network.target syslog.target")]),
     ("Service", [("execstart", "/bin/d")])] "/bin/d" rfl (by decide) rfl
    (by decide)
  exact ⟨H.1, H.2.2⟩

/-- C8 (amended): with `ExecReload` absent no reload procedure is emitted,
the dispatch excludes the reload verb, and `force_reload` is stop followed
by start.  With `ExecReload` set to a non-empty value, the reload
procedure and the reload dispatch entry both exist, and `force_reload`
invokes reload and falls back — not to literal stop-then-start, but to the
single command `restart` (which the script implements only as a dispatcher
case, not as a function; see the counterexample).  With `ExecReload`
present but *empty*, the dispatch gains the reload entry (an
`is not None` check) while no reload procedure is emitted and
`force_reload` is stop then start. -/
theorem C8_reload_emission_amended (cfg : Config) :
    (get_config_option cfg "Service" "ExecReload" = none →
      generate_reload_function cfg = [] ∧
      generate_case_statement cfg = caseNoReload ∧
      generate_force_reload_function cfg =
        ["force_reload() \x7b", "\tstop", "\tstart", "\x7d", ""]) ∧
    (∀ r, get_config_option cfg "Service" "ExecReload" = some r → r ≠ "" →
      (∃ mid, generate_reload_function cfg =
        ["reload() \x7b", "\tlog_daemon_msg \"Reloading $DESC\" \"$prog\""] ++
          mid ++ ["\texit 0", "\x7d", ""]) ∧
      generate_case_statement cfg = caseWithReload ∧
      generate_force_reload_function cfg =
        ["force_reload() \x7b", "\treload", "\tif [ $? -ne 0 ]; then",
         "\t\trestart", "\tfi", "\x7d", ""]) ∧
    (get_config_option cfg "Service" "ExecReload" = some "" →
      generate_reload_function cfg = [] ∧
      generate_case_statement cfg = caseWithReload ∧
      generate_force_reload_function cfg =
        ["force_reload() \x7b", "\tstop", "\tstart", "\x7d", ""]) := by
  refine ⟨?_, ?_, ?_⟩
  · intro h
    refine ⟨?_, ?_, ?_⟩
    · unfold generate_reload_function
      rw [h]
      rfl
    · unfold generate_case_statement
      rw [h]
      rfl
    · unfold generate_force_reload_function
      rw [h]
      rfl
  · intro r h hne
    have htr : optTruthy (some r) = true := optTruthy_some_ne hne
    refine ⟨?_, ?_, ?_⟩
    · unfold generate_reload_function
      rw [h, if_neg (by simp [htr])]
      exact ⟨_, rfl⟩
    · unfold generate_case_statement
      rw [h]
      rfl
    · unfold generate_force_reload_function
      rw [h]
      simp [htr]
  · intro h
    refine ⟨?_, ?_, ?_⟩
    · unfold generate_reload_function
      rw [h]
      rfl
    · unfold generate_case_statement
      rw [h]
      rfl
    · unfold generate_force_reload_function
      rw [h]
      rfl

/-- Witness for `C8_reload_emission_amended` at concrete units with
`ExecReload` absent and `ExecReload=/bin/r`. -/
theorem C8_reload_emission_amended_witness :
    (generate_reload_function [("Service", [("execstart", "/bin/foo")])] = [] ∧
     generate_case_statement [("Service", [("execstart", "/bin/foo")])] =
       caseNoReload ∧
     generate_force_reload_function [("Service", [("execstart", "/bin/foo")])] =
       ["force_reload() \x7b", "\tstop", "\tstart", "\x7d", ""]) ∧
    generate_force_reload_function
        [("Service", [("execstart", "/bin/foo"), ("execreload", "/bin/r")])] =
      ["force_reload() \x7b", "\treload", "\tif [ $? -ne 0 ]; then",
       "\t\trestart", "\tfi", "\x7d", ""] :=
  ⟨(C8_reload_emission_amended [("Service", [("execstart", "/bin/foo")])]).1 rfl,
   ((C8_reload_emission_amended
      [("Service", [("execstart", "/bin/foo"), ("execreload", "/bin/r")])]).2.1
      "/bin/r" rfl (by decide)).2.2⟩

/-- C9 (amended): for *every* unit, the emitted start procedure begins
with the header, the log line, and then exactly one guard block per
present (non-empty) condition, in source order — nothing for the absent
ones.  Each guard's failure branch logs and exits with code 0, never a
nonzero code, as the explicit block texts show.  The test emitted for
`ConditionPathExists` is the file-exists-and-non-empty test `[ ! -s … ]` —
identical to the `ConditionFileNotEmpty` guard, not a bare existence test
as claimed (see the counterexample); the other guards test glob match,
file non-empty, and directory non-empty respectively. -/
theorem C9_condition_guards_amended (cfg : Config) (ls : List String)
    (hk : generate_start_function cfg = .ok ls) :
    (∃ rest, ls =
      ["start() \x7b", "\tlog_daemon_msg \"Starting $DESC\" \"$prog\""] ++
        condPathExistsBlock cfg ++ condGlobBlock cfg ++ condFileBlock cfg ++
        condDirBlock cfg ++ rest) ∧
    (∀ p, get_config_option cfg "Unit" "ConditionPathExists" = some p → p ≠ "" →
      condPathExistsBlock cfg =
        ["\tif [ ! -s " ++ p ++ " ]; then", "\t\tlog_end_msg 1", "\t\texit 0",
         "\tfi"]) ∧
    (optTruthy (get_config_option cfg "Unit" "ConditionPathExists") = false →
      condPathExistsBlock cfg = []) ∧
    (∀ p, get_config_option cfg "Unit" "ConditionPathExistsGlob" = some p →
      p ≠ "" →
      condGlobBlock cfg =
        ["\tif ! ls " ++ p ++ " 1> /dev/null 2>&1; then", "\t\tlog_end_msg 1",
         "\t\texit 0", "\tfi"]) ∧
    (optTruthy (get_config_option cfg "Unit" "ConditionPathExistsGlob") = false →
      condGlobBlock cfg = []) ∧
    (∀ p, get_config_option cfg "Unit" "ConditionFileNotEmpty" = some p →
      p ≠ "" →
      condFileBlock cfg =
        ["\tif [ ! -s " ++ p ++ " ]; then", "\t\tlog_end_msg 1", "\t\texit 0",
         "\tfi"]) ∧
    (optTruthy (get_config_option cfg "Unit" "ConditionFileNotEmpty") = false →
      condFileBlock cfg = []) ∧
    (∀ p, get_config_option cfg "Unit" "ConditionDirectoryNotEmpty" = some p →
      p ≠ "" →
      condDirBlock cfg =
        ["\tif [ ! -d " ++ p ++ " ] || [ -z \"$(ls -A " ++ p ++ ")\" ]; then",
         "\t\tlog_end_msg 1", "\t\texit 0", "\tfi"]) ∧
    (optTruthy (get_config_option cfg "Unit" "ConditionDirectoryNotEmpty") = false →
      condDirBlock cfg = []) := by
  refine ⟨?_, ?_, ?_, ?_, ?_, ?_, ?_, ?_, ?_⟩
  · cases htl : startBodyTail cfg with
    | error e => simp [generate_start_function, htl, bind, Except.bind] at hk
    | ok tl =>
      have hls : ls = ["start() \x7b",
          "\tlog_daemon_msg \"Starting $DESC\" \"$prog\""] ++
          condBlock cfg ++ tl := by
        simp only [generate_start_function, htl, bind, Except.bind, pure,
          Except.pure, Except.ok.injEq] at hk
        exact hk.symm
      refine ⟨tl, ?_⟩
      rw [hls]
      unfold condBlock
      simp [List.append_assoc]
  · intro p hp hpn
    unfold condPathExistsBlock
    rw [hp]
    simp [optTruthy_some_ne hpn]
  · intro hfa
    unfold condPathExistsBlock
    simp [hfa]
  · intro p hp hpn
    unfold condGlobBlock
    rw [hp]
    simp [optTruthy_some_ne hpn]
  · intro hfa
    unfold condGlobBlock
    simp [hfa]
  · intro p hp hpn
    unfold condFileBlock
    rw [hp]
    simp [optTruthy_some_ne hpn]
  · intro hfa
    unfold condFileBlock
    simp [hfa]
  · intro p hp hpn
    unfold condDirBlock
    rw [hp]
    simp [optTruthy_some_ne hpn]
  · intro hfa
    unfold condDirBlock
    simp [hfa]

/-- Witness for `C9_condition_guards_amended` at a glob-only unit (a
proper subset of the conditions): the start procedure begins with the
glob guard alone. -/
theorem C9_condition_guards_amended_witness :
    ∃ ls rest,
      generate_start_function
          [("Unit", [("conditionpathexistsglob", "/g/*")])] = .ok ls ∧
      ls = ["start() \x7b", "\tlog_daemon_msg \"Starting $DESC\" \"$prog\"",
        "\tif ! ls /g/* 1> /dev/null 2>&1; then", "\t\tlog_end_msg 1",
        "\t\texit 0", "\tfi"] ++ rest := by
  obtain ⟨⟨rest, hrest⟩, -, hPEa, hG, -, -, hFa, -, hDa⟩ :=
    C9_condition_guards_amended
      [("Unit", [("conditionpathexistsglob", "/g/*")])] _ rfl
  have h1 : condPathExistsBlock
      [("Unit", [("conditionpathexistsglob", "/g/*")])] = [] := hPEa rfl
  have h2 : condGlobBlock [("Unit", [("conditionpathexistsglob", "/g/*")])] =
      ["\tif ! ls /g/* 1> /dev/null 2>&1; then", "\t\tlog_end_msg 1",
       "\t\texit 0", "\tfi"] := hG "/g/*" rfl (by decide)
  have h3 : condFileBlock [("Unit", [("conditionpathexistsglob", "/g/*")])] =
      [] := hFa rfl
  have h4 : condDirBlock [("Unit", [("conditionpathexistsglob", "/g/*")])] =
      [] := hDa rfl
  refine ⟨_, rest, rfl, ?_⟩
  rw [hrest, h1, h2, h3, h4]
  simp

/-- Helper: `depLineRel` is reflexive on whole line lists. -/
theorem forallTwo_refl_dep (l : List String) : List.Forall₂ depLineRel l l :=
  List.forall₂_same.mpr fun _ _ => Or.inl rfl

/-- Helper: the LSB headers produced under two valid set orderings agree
up to dependency-token order. -/
theorem header_agree (σ1 σ2 : SetOrder) (h1 : ValidOrder σ1)
    (h2 : ValidOrder σ2) (ctx : Ctx) (cfg : Config) :
    exceptAgree (List.Forall₂ depLineRel) (generate_lsb_header σ1 ctx cfg)
      (generate_lsb_header σ2 ctx cfg) := by
  unfold generate_lsb_header _generate_dependencies
  cases hrd : requiredDepsList cfg with
  | error e => simp [bind, Except.bind, hrd, exceptAgree]
  | ok req =>
    simp only [bind, Except.bind, hrd, pure, Except.pure]
    show List.Forall₂ depLineRel _ _
    have hperm : (σ1 req).Perm (σ2 req) := (h1 req).trans (h2 req).symm
    have hRS : depLineRel ("# Required-Start:\t" ++ joinSp (σ1 req))
        ("# Required-Start:\t" ++ joinSp (σ2 req)) :=
      Or.inr ⟨σ1 req, σ2 req, hperm, Or.inl ⟨rfl, rfl⟩⟩
    have hRP : depLineRel ("# Required-Stop:\t" ++ joinSp (σ1 req))
        ("# Required-Stop:\t" ++ joinSp (σ2 req)) :=
      Or.inr ⟨σ1 req, σ2 req, hperm, Or.inr (Or.inl ⟨rfl, rfl⟩)⟩
    have hdeps : List.Forall₂ depLineRel
        (["# Required-Start:\t" ++ joinSp (σ1 req),
          "# Required-Stop:\t" ++ joinSp (σ1 req)] ++
          (if shouldDepsList cfg ≠ [] then
            ["# Should-Start:\t" ++ joinSp (σ1 (shouldDepsList cfg))] else []))
        (["# Required-Start:\t" ++ joinSp (σ2 req),
          "# Required-Stop:\t" ++ joinSp (σ2 req)] ++
          (if shouldDepsList cfg ≠ [] then
            ["# Should-Start:\t" ++ joinSp (σ2 (shouldDepsList cfg))] else [])) := by
      refine List.rel_append (List.Forall₂.cons hRS
        (List.Forall₂.cons hRP List.Forall₂.nil)) ?_
      by_cases hsd : shouldDepsList cfg ≠ []
      · rw [if_pos hsd, if_pos hsd]
        have hpermS : (σ1 (shouldDepsList cfg)).Perm (σ2 (shouldDepsList cfg)) :=
          (h1 _).trans (h2 _).symm
        exact List.Forall₂.cons
          (Or.inr ⟨σ1 (shouldDepsList cfg), σ2 (shouldDepsList cfg), hpermS,
            Or.inr (Or.inr ⟨rfl, rfl⟩)⟩) List.Forall₂.nil
      · rw [if_neg hsd, if_neg hsd]
        exact List.Forall₂.nil
    exact List.rel_append (List.rel_append (List.rel_append (List.rel_append
      (List.rel_append (forallTwo_refl_dep
        ["### BEGIN INIT INFO", "# Provides: " ++ ctx.serviceName]) hdeps)
      (forallTwo_refl_dep (_generate_runlevels cfg)))
      (forallTwo_refl_dep
        ["# Short-Description: " ++ getOptD cfg "Unit" "Description" ctx.serviceName]))
      (forallTwo_refl_dep
        (if optTruthy (get_config_option cfg "Unit" "Documentation") = true then
          ["# Documentation: " ++ (get_config_option cfg "Unit" "Documentation").getD ""]
        else [])))
      (forallTwo_refl_dep ["### END INIT INFO"])

/-- Helper: whole-script agreement for a fixed parsed unit under two
valid set orderings. -/
theorem initScript_agree (σ1 σ2 : SetOrder) (h1 : ValidOrder σ1)
    (h2 : ValidOrder σ2) (ctx : Ctx) (cfg : Config) :
    exceptAgree (List.Forall₂ depLineRel) (generate_init_script σ1 ctx cfg)
      (generate_init_script σ2 ctx cfg) := by
  have hh := header_agree σ1 σ2 h1 h2 ctx cfg
  unfold generate_init_script
  cases hh1 : generate_lsb_header σ1 ctx cfg with
  | error e1 =>
    cases hh2 : generate_lsb_header σ2 ctx cfg with
    | error e2 =>
      have he : e1 = e2 := by
        rw [hh1, hh2] at hh
        simpa [exceptAgree] using hh
      subst he
      simp [bind, Except.bind, exceptAgree]
    | ok l2 =>
      rw [hh1, hh2] at hh
      exact absurd hh (by simp [exceptAgree])
  | ok l1 =>
    cases hh2 : generate_lsb_header σ2 ctx cfg with
    | error e2 =>
      rw [hh1, hh2] at hh
      exact absurd hh (by simp [exceptAgree])
    | ok l2 =>
      have hrel : List.Forall₂ depLineRel l1 l2 := by
        rw [hh1, hh2] at hh
        simpa [exceptAgree] using hh
      simp only [bind, Except.bind]
      cases hst : generate_start_function cfg with
      | error e => simp [exceptAgree]
      | ok st =>
        cases hsp : generate_stop_function cfg with
        | error e => simp [exceptAgree]
        | ok sp =>
          cases hss : generate_status_function cfg with
          | error e => simp [exceptAgree]
          | ok ss =>
            simp only [pure, Except.pure]
            show List.Forall₂ depLineRel _ _
            exact List.rel_append (List.rel_append (List.rel_append
              (List.rel_append (List.rel_append (List.rel_append
                (List.rel_append (List.rel_append (List.rel_append
                  (List.rel_append
                    (forallTwo_refl_dep ["#!/bin/sh"]) hrel)
                  (forallTwo_refl_dep [""]))
                  (forallTwo_refl_dep (generate_script_variables ctx cfg)))
                  (forallTwo_refl_dep [""]))
                  (forallTwo_refl_dep st))
                  (forallTwo_refl_dep sp))
                  (forallTwo_refl_dep ss))
                  (forallTwo_refl_dep (generate_reload_function cfg)))
                  (forallTwo_refl_dep (generate_force_reload_function cfg)))
              (forallTwo_refl_dep (generate_case_statement cfg))

/-- C10: conversion is deterministic up to the explicitly unordered
dependency sets: for every input (base name and unit text) and any two
admissible iteration orders of the Python `set`s used for the facility
tokens, the two conversions either fail with the same error or produce
line-by-line identical output, except that the Required-Start /
Required-Stop / Should-Start header fields may list their facility tokens
in a different order (always a permutation of the same set). -/
theorem C10_determinism_up_to_dep_order (σ1 σ2 : SetOrder)
    (h1 : ValidOrder σ1) (h2 : ValidOrder σ2) (basename : String)
    (lines : List String) :
    exceptAgree (List.Forall₂ depLineRel) (convert σ1 basename lines)
      (convert σ2 basename lines) := by
  unfold convert
  cases hp : parse_service_file basename lines with
  | error e => simp [bind, Except.bind, exceptAgree]
  | ok pr =>
    simp only [bind, Except.bind]
    exact initScript_agree σ1 σ2 h1 h2 pr.1 pr.2

/-- Witness for `C10_determinism_up_to_dep_order`: first-occurrence order
versus its reverse (both are orderings of the set of distinct elements)
on a concrete unit. -/
theorem C10_determinism_up_to_dep_order_witness :
    exceptAgree (List.Forall₂ depLineRel)
      (convert canonOrder "w.service"
        ["[Service]", "ExecStart=/usr/bin/w", "[Unit]",
         "After=network.target"])
      (convert (fun l => l.dedup.reverse) "w.service"
        ["[Service]", "ExecStart=/usr/bin/w", "[Unit]",
         "After=network.target"]) :=
  C10_determinism_up_to_dep_order canonOrder (fun l => l.dedup.reverse)
    (fun l => List.Perm.refl l.dedup)
    (fun l => List.reverse_perm l.dedup)
    "w.service"
    ["[Service]", "ExecStart=/usr/bin/w", "[Unit]", "After=network.target"]
